import Mathlib

/-!
Verification of the harrier Authentication & Security Analysis Engine
(`crates/harrier-detectors/src/auth/*`) against its natural-language
specification.

Modelling conventions.

* Rust `String`/`&str` values are modelled as Lean `String`s, and every
  operation on them (`contains`, `starts_with`, `to_lowercase`, `split`,
  truncation, comparison) is implemented here over the underlying
  character list so that all definitions evaluate by kernel reduction.
  Rust's `to_lowercase`/`trim` are Unicode-aware; the model implements
  the ASCII part, which coincides with the Rust behaviour on every ASCII
  literal the engine compares against and on all inputs used in
  counterexamples and witnesses below.
* Rust string indexing is byte-based and panics on non-UTF-8-boundary
  indices.  The character-level model above is total; the byte-level
  slicing behaviour, which is what decides claim C1, is modelled
  separately and faithfully at the end of the development over byte
  lists (`ByteStr`).
* `HashMap`/`HashSet` contents are modelled as association lists holding,
  for each key, exactly the values pushed for that key in scan order.
  Iteration order of the real maps is arbitrary (randomised per map);
  the model canonicalises it to first-insertion order and, where a claim
  depends on iteration order (C2), quantifies over all permutations.
* Fields never read by any detector (`time`, `httpVersion`, sizes,
  cache/timings, comments) and the floating-point duration fields
  (`duration_ms`, `frequency`, `token_lifetime`, computed via the
  external `chrono` parser and referenced by no claim) are omitted.
  JSON/base64 decoding of JWT segments is performed by the external
  `serde_json`/`base64` crates; the corresponding two segment parsers
  are taken as parameters of the JWT analyzer.
* The detectors return `Result` in Rust but never produce an `Err`;
  they are modelled as plain functions.
-/

namespace Harrier

/-! ## Character-list string primitives -/

/-- `prefOf pat l` is true iff the character list `pat` is a prefix of `l`
(models Rust `str::starts_with`). -/
def prefOf : List Char → List Char → Bool
  | [], _ => true
  | _ :: _, [] => false
  | p :: ps, c :: cs => p == c && prefOf ps cs

/-- `subOf pat l` is true iff `pat` occurs as a contiguous sublist of `l`
(models Rust `str::contains` with a literal pattern). -/
def subOf (pat : List Char) : List Char → Bool
  | [] => prefOf pat []
  | c :: cs => prefOf pat (c :: cs) || subOf pat cs

/-- Rust `s.contains(pat)`. -/
def strContains (s pat : String) : Bool := subOf pat.data s.data

/-- Rust `s.starts_with(pat)`. -/
def strStarts (s pat : String) : Bool := prefOf pat.data s.data

/-- Rust `s.to_lowercase()` (ASCII part; see module conventions). -/
def strLower (s : String) : String := ⟨s.data.map Char.toLower⟩

/-- Lexicographic order on character lists by code point; models the
`Ord` instance on Rust `String` used by `sort_by(cmp)` (byte order and
code-point order agree on UTF-8). -/
def listLt : List Char → List Char → Bool
  | [], [] => false
  | [], _ :: _ => true
  | _ :: _, [] => false
  | a :: as, b :: bs => a < b || (a == b && listLt as bs)

/-- Rust `a.cmp(&b) == Less` for strings. -/
def strLt (a b : String) : Bool := listLt a.data b.data

/-- Rust `s.split('.')` (on the character list): splits at every dot,
keeping empty segments, and yields one (possibly empty) segment even for
the empty input. -/
def splitDot : List Char → List (List Char) :=
  List.foldr
    (fun c acc =>
      if c == '.' then [] :: acc
      else
        match acc with
        | [] => [[c]]
        | a :: as => (c :: a) :: as)
    [[]]

/-- Rust `s.chars().take`-style truncation helper: first `n` characters.
Used to model byte-based `&s[..n]` on the ASCII inputs where both agree
(the byte-level divergence is claim C1's subject). -/
def strTake (s : String) (n : Nat) : String := ⟨s.data.take n⟩

/-- ASCII whitespace test (the inputs considered contain no Unicode
whitespace, where Rust `trim` would differ). -/
def isWsChar (c : Char) : Bool := c == ' ' || c == '\t' || c == '\n' || c == '\r'

/-- Rust `s.trim()` (ASCII part). -/
def strTrim (s : String) : String :=
  ⟨((s.data.dropWhile isWsChar).reverse.dropWhile isWsChar).reverse⟩

/-- Rust `s.find(pat)`, returning the index of the first occurrence
(indices are character positions; all patterns searched for are ASCII). -/
def findSub (pat : List Char) : List Char → Option Nat
  | [] => if prefOf pat [] then some 0 else none
  | c :: cs =>
    if prefOf pat (c :: cs) then some 0
    else (findSub pat cs).map (· + 1)

/-- `enumL n l` pairs each element of `l` with its index, starting at `n`
(models `iter().enumerate()`; `skip` is modelled with `List.drop`). -/
def enumL (n : Nat) : List α → List (Nat × α)
  | [] => []
  | a :: as => (n, a) :: enumL (n + 1) as

/-- Stable insertion into a list sorted by the strict comparison `lt`:
the new element goes after every element not strictly greater. -/
def sInsert (lt : α → α → Bool) (x : α) : List α → List α
  | [] => [x]
  | y :: ys => if lt x y then x :: y :: ys else y :: sInsert lt x ys

/-- Stable sort by the strict comparison `lt` (left-fold insertion sort);
models Rust's stable `sort_by` given a total order with `lt` as its
strict part: a stable sort's output is determined by the comparator. -/
def sortByStable (lt : α → α → Bool) (l : List α) : List α :=
  l.foldl (fun acc x => sInsert lt x acc) []

/-- Keys in first-occurrence order, skipping any key already `seen`. -/
def dedupAcc (seen : List String) : List String → List String
  | [] => []
  | k :: ks => if k ∈ seen then dedupAcc seen ks else k :: dedupAcc (k :: seen) ks

/-- Keys in first-occurrence order with duplicates removed; the canonical
iteration order chosen for modelled `HashMap`s. -/
def dedupKeys (l : List String) : List String := dedupAcc [] l

/-- The contents of a `HashMap<String, Vec<β>>` built by pushing each
pair of `l` under its key: for every key, exactly the values pushed for
it in scan order, listed in the canonical (first-insertion) key order. -/
def groupPairs (l : List (String × β)) : List (String × List β) :=
  (dedupKeys (l.map Prod.fst)).map
    (fun k => (k, (l.filter (fun p => p.1 == k)).map Prod.snd))

/-! ## HAR data model (`harrier-core/src/har/types.rs`), read fields only -/

structure Cookie where
  name : String
  value : String
  path : Option String := none
  domain : Option String := none
  expires : Option String := none
  http_only : Option Bool := none
  secure : Option Bool := none
deriving DecidableEq, Repr

structure Header where
  name : String
  value : String
deriving DecidableEq, Repr

structure PostData where
  mime_type : String
  text : Option String := none
deriving DecidableEq, Repr

structure Content where
  mime_type : String
  text : Option String := none
deriving DecidableEq, Repr

structure Request where
  method : String
  url : String
  cookies : List Cookie := []
  headers : List Header := []
  post_data : Option PostData := none
deriving DecidableEq, Repr

structure Response where
  status : Int
  cookies : List Cookie := []
  headers : List Header := []
  content : Content
deriving DecidableEq, Repr

structure Entry where
  started_date_time : String
  request : Request
  response : Response
deriving DecidableEq, Repr

/-- The engine's input: `har.log.entries`, the ordered transaction list. -/
abbrev Har := List Entry

/-! ## Method Detector (`auth/methods.rs`) -/

inductive AuthMethod where
  | Basic
  | Bearer
  | ApiKey (headerName : String)
  | OAuth
  | Jwt
  | Cookie
  | Custom (headerName : String)
deriving DecidableEq, Repr

/-- Character class `[A-Za-z0-9-_]` of `JWT_PATTERN`. -/
def isJwtSegChar (c : Char) : Bool := c.isAlpha || c.isDigit || c == '-' || c == '_'

/-- `JWT_PATTERN.is_match token`: the regex
`^[A-Za-z0-9-_]+\.[A-Za-z0-9-_]+\.[A-Za-z0-9-_]+$` matches exactly the
strings that split on `.` into exactly three nonempty segments of
characters from the class (segments cannot contain a dot). -/
def jwtPatternMatch (t : String) : Bool :=
  match splitDot t.data with
  | [a, b, c] =>
    (!a.isEmpty && a.all isJwtSegChar) &&
    (!b.isEmpty && b.all isJwtSegChar) &&
    (!c.isEmpty && c.all isJwtSegChar)
  | _ => false

/-- Fuelled stripping loop for `trim_start_matches("Bearer ")`: each
successful strip removes 7 characters, so `s.length` rounds of fuel
always suffice (structural recursion keeps the definition computable by
the kernel). -/
def trimBearerAux : Nat → List Char → List Char
  | 0, s => s
  | n + 1, s => if prefOf "Bearer ".data s then trimBearerAux n (s.drop 7) else s

/-- Rust `value.trim_start_matches("Bearer ")`: removes every leading
repetition of the pattern. -/
def trimBearerList (s : List Char) : List Char := trimBearerAux s.length s

def trimBearer (s : String) : String := ⟨trimBearerList s.data⟩

/-- `AuthDetector::has_auth_cookie` (methods.rs): the whole `Cookie`
header value, lowercased, contains one of the marker substrings. -/
def has_auth_cookie (cookieHeader : String) : Bool :=
  let lower := strLower cookieHeader
  strContains lower "session" || strContains lower "auth" ||
  strContains lower "token" || strContains lower "jwt" ||
  strContains lower "sid"

/-- `AuthDetector::is_auth_cookie` (methods.rs): cookie-name predicate;
note `sid` by equality here, unlike `has_auth_cookie`. -/
def is_auth_cookie_m (name : String) : Bool :=
  let lower := strLower name
  strContains lower "session" || strContains lower "auth" ||
  strContains lower "token" || strContains lower "jwt" || lower == "sid"

/-- The `"authorization"` arm of the header match in
`AuthDetector::detect`: which method (if any) a given `Authorization`
header value contributes. -/
def authSignal (value : String) : Option AuthMethod :=
  if strStarts value "Basic " then some .Basic
  else if strStarts value "Bearer " then
    let token := trimBearer value
    if jwtPatternMatch token then some .Jwt else some .Bearer
  else if strStarts value "OAuth " then some .OAuth
  else none

/-- `HashSet::insert`, canonical order: append if absent. -/
def insertAbsent (l : List AuthMethod) (m : AuthMethod) : List AuthMethod :=
  if m ∈ l then l else l ++ [m]

/-- One request header's contribution in `AuthDetector::detect`
(the `match header_name.as_str()` block). -/
def headerStep (acc : List AuthMethod) (h : Header) : List AuthMethod :=
  let headerName := strLower h.name
  if headerName == "authorization" then
    match authSignal h.value with
    | some m => insertAbsent acc m
    | none => acc
  else if headerName == "x-api-key" || headerName == "api-key" || headerName == "apikey" then
    insertAbsent acc (.ApiKey h.name)
  else if headerName == "cookie" then
    if has_auth_cookie h.value then insertAbsent acc .Cookie else acc
  else if strContains headerName "auth" || strContains headerName "token" then
    insertAbsent acc (.Custom h.name)
  else acc

/-- One request cookie's contribution in `AuthDetector::detect`. -/
def cookieStep (acc : List AuthMethod) (c : Cookie) : List AuthMethod :=
  if is_auth_cookie_m c.name then insertAbsent acc .Cookie else acc

/-- One entry's contribution in `AuthDetector::detect`. -/
def detectEntry (acc : List AuthMethod) (e : Entry) : List AuthMethod :=
  e.request.cookies.foldl cookieStep (e.request.headers.foldl headerStep acc)

/-- `AuthDetector::detect`: the set of coarse authentication methods,
in canonical insertion order. -/
def detect (har : Har) : List AuthMethod := har.foldl detectEntry []

/-! ## Session Tracker (`auth/sessions.rs`) -/

inductive SessionType where
  | Cookie (name : String)
  | BearerToken (is_jwt : Bool)
  | ApiKey (header_name : String)
deriving DecidableEq, Repr

structure SessionAttributes where
  http_only : Option Bool
  secure : Option Bool
  same_site : Option String
  expires : Option String
  path : Option String
  domain : Option String
deriving DecidableEq, Repr

/-- `SessionAttributes::from_cookie`; `same_site` is `None` by
construction (the HAR format lacks it). -/
def sessionAttributesFromCookie (c : Cookie) : SessionAttributes :=
  { http_only := c.http_only, secure := c.secure, same_site := none,
    expires := c.expires, path := c.path, domain := c.domain }

/-- `AuthSession` (the float `duration_ms` is omitted, see module
conventions). -/
structure AuthSession where
  session_type : SessionType
  identifier : String
  first_seen : String
  last_seen : String
  request_count : Nat
  entry_indices : List Nat
  attributes : Option SessionAttributes
deriving DecidableEq, Repr

/-- `SessionTracker::is_auth_cookie` (extends the methods.rs predicate
with the well-known session cookie names and prefixes; `sid` here by
substring). -/
def is_auth_cookie_s (name : String) : Bool :=
  let lower := strLower name
  strContains lower "session" || strContains lower "auth" ||
  strContains lower "token" || strContains lower "jwt" ||
  strContains lower "sid" || lower == "connect.sid" ||
  lower == "jsessionid" || lower == "phpsessid" ||
  strStarts lower "__host-" || strStarts lower "__secure-"

/-- `SessionTracker::is_api_key_header`. -/
def is_api_key_header (name : String) : Bool :=
  let lower := strLower name
  lower == "x-api-key" || lower == "api-key" || lower == "apikey" ||
  lower == "x-api-token" || lower == "api-token"

/-- `SessionTracker::extract_bearer_token`: `strip_prefix("Bearer ")`
then `trim` (a single strip, unlike methods.rs). -/
def extract_bearer_token (headerValue : String) : Option String :=
  if strStarts headerValue "Bearer " then some (strTrim ⟨headerValue.data.drop 7⟩)
  else none

/-- `SessionTracker::is_jwt`: exactly 3 dot-separated parts, all
nonempty. -/
def is_jwt_strict (token : String) : Bool :=
  let parts := splitDot token.data
  parts.length == 3 && parts.all (fun p => !p.isEmpty)

/-- `SessionTracker::token_identifier`: leading 16 characters plus an
ellipsis (byte-level slicing behaviour modelled separately for C1). -/
def token_identifier (token : String) : String :=
  if token.length > 16 then strTake token 16 ++ "..." else token

/-- `SessionTracker::truncate_value`: leading 12 characters plus an
ellipsis. -/
def truncate_value (value : String) : String :=
  if value.length > 12 then strTake value 12 ++ "..." else value

/-- The cookie-session grouping pass: each auth-looking request cookie
pushes `(idx, entry, cookie)` under its cookie name. -/
def cookiePairs (har : Har) : List (String × (Nat × Entry × Cookie)) :=
  (enumL 0 har).flatMap (fun p =>
    (p.2.request.cookies.filter (fun c => is_auth_cookie_s c.name)).map
      (fun c => (c.name, (p.1, p.2, c))))

/-- The bearer-session grouping pass: each `Authorization: Bearer`
header pushes `(idx, entry, token)` under the token's 16-character key. -/
def bearerPairs (har : Har) : List (String × (Nat × Entry × String)) :=
  (enumL 0 har).flatMap (fun p =>
    p.2.request.headers.filterMap (fun h =>
      if strLower h.name == "authorization" then
        (extract_bearer_token h.value).map (fun token =>
          (token_identifier token, (p.1, p.2, token)))
      else none))

/-- The API-key grouping pass: each API-key-ish header pushes
`(idx, entry, header name)` under `"{name}:{truncated value}"`. -/
def apiKeyPairs (har : Har) : List (String × (Nat × Entry × String)) :=
  (enumL 0 har).flatMap (fun p =>
    p.2.request.headers.filterMap (fun h =>
      if is_api_key_header h.name then
        some (h.name ++ ":" ++ truncate_value h.value, (p.1, p.2, h.name))
      else none))

/-- `SessionTracker::build_cookie_session`. -/
def build_cookie_session (cookieName : String) (vs : List (Nat × Entry × Cookie)) :
    Option AuthSession :=
  match vs with
  | [] => none
  | f :: rest =>
    let lastE := (f :: rest).getLast (List.cons_ne_nil f rest)
    some { session_type := .Cookie cookieName,
           identifier := cookieName ++ "=" ++ truncate_value f.2.2.value,
           first_seen := f.2.1.started_date_time,
           last_seen := lastE.2.1.started_date_time,
           request_count := (f :: rest).length,
           entry_indices := (f :: rest).map (·.1),
           attributes := some (sessionAttributesFromCookie f.2.2) }

/-- `SessionTracker::build_bearer_session`. -/
def build_bearer_session (tokenKey : String) (vs : List (Nat × Entry × String)) :
    Option AuthSession :=
  match vs with
  | [] => none
  | f :: rest =>
    let lastE := (f :: rest).getLast (List.cons_ne_nil f rest)
    some { session_type := .BearerToken (is_jwt_strict f.2.2),
           identifier := "Bearer " ++ truncate_value tokenKey,
           first_seen := f.2.1.started_date_time,
           last_seen := lastE.2.1.started_date_time,
           request_count := (f :: rest).length,
           entry_indices := (f :: rest).map (·.1),
           attributes := none }

/-- `SessionTracker::build_apikey_session`. -/
def build_apikey_session (vs : List (Nat × Entry × String)) : Option AuthSession :=
  match vs with
  | [] => none
  | f :: rest =>
    let lastE := (f :: rest).getLast (List.cons_ne_nil f rest)
    some { session_type := .ApiKey f.2.2,
           identifier := f.2.2 ++ ": ***",
           first_seen := f.2.1.started_date_time,
           last_seen := lastE.2.1.started_date_time,
           request_count := (f :: rest).length,
           entry_indices := (f :: rest).map (·.1),
           attributes := none }

/-- Comparison used by the final `sort_by(first_seen)`. -/
def sessionLt (a b : AuthSession) : Bool := strLt a.first_seen b.first_seen

/-- `SessionTracker::track_sessions`, with the modelled maps iterated in
canonical order (claim C2 quantifies over the real, arbitrary iteration
orders via `sessionsRun`). -/
def track_sessions (har : Har) : List AuthSession :=
  sortByStable sessionLt
    ((groupPairs (cookiePairs har)).filterMap (fun p => build_cookie_session p.1 p.2) ++
     (groupPairs (bearerPairs har)).filterMap (fun p => build_bearer_session p.1 p.2) ++
     (groupPairs (apiKeyPairs har)).filterMap (fun p => build_apikey_session p.2))

/-- The possible observable results of one `track_sessions` run: the
three grouping maps are iterated in an arbitrary order (Rust `HashMap`
iteration order is randomised per map instance), everything else is
deterministic. -/
def sessionsRun (har : Har) (out : List AuthSession) : Prop :=
  ∃ cg bg ag,
    List.Perm cg (groupPairs (cookiePairs har)) ∧
    List.Perm bg (groupPairs (bearerPairs har)) ∧
    List.Perm ag (groupPairs (apiKeyPairs har)) ∧
    out = sortByStable sessionLt
      (cg.filterMap (fun p => build_cookie_session p.1 p.2) ++
       bg.filterMap (fun p => build_bearer_session p.1 p.2) ++
       ag.filterMap (fun p => build_apikey_session p.2))

/-! ## Flow Detector (`auth/flows.rs`) -/

inductive AuthFlowType where
  | OAuth2AuthorizationCode (pkce : Bool)
  | OAuth2ClientCredentials
  | OAuth2Implicit
  | FormBased
  | JsonApi
  | Unknown
deriving DecidableEq, Repr

inductive FlowRole where
  | LoginPage
  | CredentialsSubmission
  | AuthorizationRequest
  | AuthorizationCallback
  | TokenExchange
  | TokenResponse
  | FirstAuthenticatedRequest
deriving DecidableEq, Repr

structure FlowStep where
  entry_index : Nat
  timestamp : String
  role : FlowRole
  method : String
  url : String
  status : Int
  description : String
deriving DecidableEq, Repr

/-- `AuthFlow` (the float `duration_ms` is omitted, see module
conventions). -/
structure AuthFlow where
  flow_type : AuthFlowType
  start_time : String
  end_time : Option String
  steps : List FlowStep
deriving DecidableEq, Repr

/-- `FlowDetector::truncate_url`. -/
def truncate_url (url : String) : String :=
  if url.length > 80 then strTake url 77 ++ "..." else url

def mkFlowStep (i : Nat) (e : Entry) (role : FlowRole) (desc : String) : FlowStep :=
  { entry_index := i, timestamp := e.started_date_time, role := role,
    method := e.request.method, url := truncate_url e.request.url,
    status := e.response.status, description := desc }

/-- The bounded forward scan shared by all `find_*` helpers: iterate the
enumerated entries from `start`, return the first satisfying entry; the
predicate is checked before the window test `i - start > w`, so indices
`start .. start + w + 1` are examined. -/
def scanW (p : Entry → Bool) (start w : Nat) : List (Nat × Entry) → Option (Nat × Entry)
  | [] => none
  | (i, e) :: rest =>
    if p e then some (i, e)
    else if i - start > w then none
    else scanW p start w rest

/-- `entries.iter().enumerate().skip(start_idx)` feeding a bounded scan. -/
def findFrom (p : Entry → Bool) (entries : Har) (start w : Nat) : Option (Nat × Entry) :=
  scanW p start w ((enumL 0 entries).drop start)

def is_oauth_authorize_request (e : Entry) : Bool :=
  strContains e.request.url "/authorize" || strContains e.request.url "/oauth/authorize"

def has_pkce_challenge (e : Entry) : Bool :=
  strContains e.request.url "code_challenge=" &&
  strContains e.request.url "code_challenge_method="

def auth_callback_pred (e : Entry) : Bool :=
  strContains e.request.url "?code=" || strContains e.request.url "&code="

/-- `FlowDetector::find_authorization_callback` (lookahead 10). -/
def find_authorization_callback (entries : Har) (start : Nat) : Option (Nat × Entry) :=
  findFrom auth_callback_pred entries start 10

/-- Request body text, when present (`post_data.text`). -/
def postText (e : Entry) : Option String := e.request.post_data.bind (·.text)

def token_exchange_pred (expectPkce : Bool) (e : Entry) : Bool :=
  e.request.method == "POST" &&
  (strContains e.request.url "/token" || strContains e.request.url "/oauth/token") &&
  (match postText e with
   | some text =>
     strContains text "grant_type=authorization_code" &&
     (if expectPkce then strContains text "code_verifier=" else true)
   | none => false)

/-- `FlowDetector::find_token_exchange` (lookahead 10; with PKCE the
verifier must also be present, otherwise the scan continues). -/
def find_token_exchange (entries : Har) (start : Nat) (expectPkce : Bool) :
    Option (Nat × Entry) :=
  findFrom (token_exchange_pred expectPkce) entries start 10

def bearer_request_pred (e : Entry) : Bool :=
  e.request.headers.any (fun h =>
    strLower h.name == "authorization" && strStarts h.value "Bearer ")

/-- `FlowDetector::find_first_bearer_request` (lookahead 10). -/
def find_first_bearer_request (entries : Har) (start : Nat) : Option (Nat × Entry) :=
  findFrom bearer_request_pred entries start 10

def is_client_credentials_request (e : Entry) : Bool :=
  e.request.method == "POST" &&
  (strContains e.request.url "/token" || strContains e.request.url "/oauth/token") &&
  (match postText e with
   | some text => strContains text "grant_type=client_credentials"
   | none => false)

def is_oauth_implicit_request (e : Entry) : Bool :=
  strContains e.request.url "/authorize" && strContains e.request.url "response_type=token"

def is_login_page_request (e : Entry) : Bool :=
  e.request.method == "GET" &&
  (strContains e.request.url "/login" || strContains e.request.url "/signin" ||
   strContains e.request.url "/auth/login") &&
  strContains e.response.content.mime_type "text/html"

def form_submission_pred (e : Entry) : Bool :=
  e.request.method == "POST" &&
  (strContains e.request.url "/login" || strContains e.request.url "/signin" ||
   strContains e.request.url "/auth") &&
  (match e.request.post_data with
   | some pd =>
     (strContains pd.mime_type "application/x-www-form-urlencoded" ||
      strContains pd.mime_type "multipart/form-data") &&
     (match pd.text with
      | some text =>
        (strContains text "username" || strContains text "email") &&
        strContains text "password"
      | none => false)
   | none => false)

/-- `FlowDetector::find_form_submission` (lookahead 5). -/
def find_form_submission (entries : Har) (start : Nat) : Option (Nat × Entry) :=
  findFrom form_submission_pred entries start 5

/-- `FlowDetector::session_established`: the response sets an
auth-looking cookie. -/
def session_established (e : Entry) : Bool :=
  e.response.cookies.any (fun c =>
    let lower := strLower c.name
    strContains lower "session" || strContains lower "auth" || strContains lower "token")

def session_request_pred (e : Entry) : Bool :=
  e.request.cookies.any (fun c =>
    let lower := strLower c.name
    strContains lower "session" || strContains lower "auth" || strContains lower "token")

/-- `FlowDetector::find_first_session_request` (lookahead 10). -/
def find_first_session_request (entries : Har) (start : Nat) : Option (Nat × Entry) :=
  findFrom session_request_pred entries start 10

def is_json_auth_request (e : Entry) : Bool :=
  e.request.method == "POST" &&
  (strContains e.request.url "/login" || strContains e.request.url "/auth/login" ||
   strContains e.request.url "/api/login" || strContains e.request.url "/api/auth") &&
  (match e.request.post_data with
   | some pd =>
     strContains pd.mime_type "application/json" &&
     (match pd.text with
      | some text =>
        (strContains text "\"username\"" || strContains text "\"email\"") &&
        strContains text "\"password\""
      | none => false)
   | none => false)

def has_json_token_response (e : Entry) : Bool :=
  strContains e.response.content.mime_type "application/json" &&
  (match e.response.content.text with
   | some text =>
     strContains text "\"token\"" || strContains text "\"access_token\"" ||
     strContains text "\"accessToken\""
   | none => false)

/-- One anchor of `detect_oauth2_authorization_code`: the chained
bounded scans for callback, token exchange and first Bearer request;
recorded only with at least 2 steps. -/
def acFlowAt (entries : Har) (i : Nat) (e : Entry) : Option AuthFlow :=
  if is_oauth_authorize_request e then
    let pkce := has_pkce_challenge e
    let s0 := mkFlowStep i e .AuthorizationRequest "Authorization request initiated"
    let rest :=
      match find_authorization_callback entries (i + 1) with
      | none => []
      | some (ci, ce) =>
        let s1 := mkFlowStep ci ce .AuthorizationCallback "Authorization code received"
        match find_token_exchange entries (ci + 1) pkce with
        | none => [s1]
        | some (ti, te) =>
          let s2 := mkFlowStep ti te .TokenExchange "Token exchange request"
          match find_first_bearer_request entries (ti + 1) with
          | none => [s1, s2]
          | some (ai, ae) =>
            [s1, s2, mkFlowStep ai ae .FirstAuthenticatedRequest "First authenticated request"]
    if (s0 :: rest).length > 1 then
      some { flow_type := .OAuth2AuthorizationCode pkce,
             start_time := s0.timestamp,
             end_time := ((s0 :: rest).getLast?).map (·.timestamp),
             steps := s0 :: rest }
    else none
  else none

/-- One anchor of `detect_oauth2_client_credentials`: always recorded,
with an optional second (first Bearer request) step. -/
def ccFlowAt (entries : Har) (i : Nat) (e : Entry) : Option AuthFlow :=
  if is_client_credentials_request e then
    let s0 := mkFlowStep i e .TokenExchange "Client credentials token request"
    let rest :=
      match find_first_bearer_request entries (i + 1) with
      | none => []
      | some (ai, ae) =>
        [mkFlowStep ai ae .FirstAuthenticatedRequest "First authenticated request"]
    some { flow_type := .OAuth2ClientCredentials,
           start_time := s0.timestamp,
           end_time := ((s0 :: rest).getLast?).map (·.timestamp),
           steps := s0 :: rest }
  else none

/-- One anchor of `detect_oauth2_implicit`: recorded as a single-step
flow. -/
def implicitFlowAt (i : Nat) (e : Entry) : Option AuthFlow :=
  if is_oauth_implicit_request e then
    let s0 := mkFlowStep i e .AuthorizationRequest
      "Implicit flow authorization (token in redirect)"
    some { flow_type := .OAuth2Implicit, start_time := s0.timestamp,
           end_time := some s0.timestamp, steps := [s0] }
  else none

/-- One anchor of `detect_form_login`; recorded only with at least 2
steps. -/
def formFlowAt (entries : Har) (i : Nat) (e : Entry) : Option AuthFlow :=
  if is_login_page_request e then
    let s0 := mkFlowStep i e .LoginPage "Login page loaded"
    let rest :=
      match find_form_submission entries (i + 1) with
      | none => []
      | some (si, se) =>
        let s1 := mkFlowStep si se .CredentialsSubmission "Credentials submitted"
        if session_established se then
          match find_first_session_request entries (si + 1) with
          | none => [s1]
          | some (ai, ae) =>
            [s1, mkFlowStep ai ae .FirstAuthenticatedRequest "First authenticated request"]
        else [s1]
    if (s0 :: rest).length > 1 then
      some { flow_type := .FormBased, start_time := s0.timestamp,
             end_time := ((s0 :: rest).getLast?).map (·.timestamp),
             steps := s0 :: rest }
    else none
  else none

/-- The steps following a JSON-API anchor: a `TokenResponse` step (at
the anchor's own entry index) when the 200 response carries a token,
then the first subsequent Bearer request. -/
def jsonRest (entries : Har) (i : Nat) (e : Entry) : List FlowStep :=
  if e.response.status == 200 && has_json_token_response e then
    let s1 := mkFlowStep i e .TokenResponse "Token received in JSON response"
    match find_first_bearer_request entries (i + 1) with
    | none => [s1]
    | some (ai, ae) =>
      [s1, mkFlowStep ai ae .FirstAuthenticatedRequest "First authenticated request"]
  else []

/-- One anchor of `detect_json_api_auth`; recorded only with at least 2
steps. -/
def jsonFlowAt (entries : Har) (i : Nat) (e : Entry) : Option AuthFlow :=
  if is_json_auth_request e then
    let s0 := mkFlowStep i e .CredentialsSubmission "JSON authentication request"
    let rest := jsonRest entries i e
    if (s0 :: rest).length > 1 then
      some { flow_type := .JsonApi, start_time := s0.timestamp,
             end_time := ((s0 :: rest).getLast?).map (·.timestamp),
             steps := s0 :: rest }
    else none
  else none

def flowLt (a b : AuthFlow) : Bool := strLt a.start_time b.start_time

/-- `FlowDetector::detect_flows`: the five families in source order,
then a stable sort by start time. -/
def detect_flows (har : Har) : List AuthFlow :=
  sortByStable flowLt
    ((enumL 0 har).filterMap (fun p => acFlowAt har p.1 p.2) ++
     (enumL 0 har).filterMap (fun p => ccFlowAt har p.1 p.2) ++
     (enumL 0 har).filterMap (fun p => implicitFlowAt p.1 p.2) ++
     (enumL 0 har).filterMap (fun p => formFlowAt har p.1 p.2) ++
     (enumL 0 har).filterMap (fun p => jsonFlowAt har p.1 p.2))

/-! ## Severity (`auth/security.rs`) -/

inductive Severity where
  | Info
  | Warning
  | Critical
deriving DecidableEq, Repr

/-! ## SAML Detector (`auth/saml.rs`) -/

inductive SamlFlowType where
  | SpInitiated
  | IdpInitiated
  | Logout
deriving DecidableEq, Repr

inductive SamlStepRole where
  | AuthnRequest
  | IdpRedirect
  | SamlResponse
  | AssertionConsumerService
  | LogoutRequest
  | LogoutResponse
deriving DecidableEq, Repr

structure SamlStep where
  entry_index : Nat
  timestamp : String
  role : SamlStepRole
  method : String
  url : String
  status : Int
  description : String
deriving DecidableEq, Repr

structure SamlFlow where
  flow_type : SamlFlowType
  start_time : String
  end_time : Option String
  steps : List SamlStep
  idp_entity_id : Option String
  sp_entity_id : Option String
deriving DecidableEq, Repr

structure SamlSecurityIssue where
  severity : Severity
  message : String
  entry_index : Nat
deriving DecidableEq, Repr

def mkSamlStep (i : Nat) (e : Entry) (role : SamlStepRole) (desc : String) : SamlStep :=
  { entry_index := i, timestamp := e.started_date_time, role := role,
    method := e.request.method, url := truncate_url e.request.url,
    status := e.response.status, description := desc }

def is_saml_authn_request (e : Entry) : Bool :=
  let urlLower := strLower e.request.url
  if strContains urlLower "/saml/sso" || strContains urlLower "/saml2/sso" ||
     strContains urlLower "samlrequest=" then true
  else
    match postText e with
    | some text => strContains text "SAMLRequest"
    | none => false

def is_saml_response (e : Entry) : Bool :=
  if strContains (strLower e.request.url) "samlresponse=" then true
  else
    match postText e with
    | some text => strContains text "SAMLResponse"
    | none => false

def is_saml_logout_request (e : Entry) : Bool :=
  let urlLower := strLower e.request.url
  strContains urlLower "/saml/logout" || strContains urlLower "/saml2/logout" ||
  strContains urlLower "samllogoutrequest="

def idp_interaction_pred (e : Entry) : Bool :=
  let urlLower := strLower e.request.url
  strContains urlLower "/idp/" || strContains urlLower "/sso/" ||
  strContains urlLower "/auth/"

/-- `SamlDetector::find_idp_interaction` (lookahead 10). -/
def find_idp_interaction (entries : Har) (start : Nat) : Option (Nat × Entry) :=
  findFrom idp_interaction_pred entries start 10

/-- `SamlDetector::find_saml_response` (lookahead 15). -/
def find_saml_response (entries : Har) (start : Nat) : Option (Nat × Entry) :=
  findFrom is_saml_response entries start 15

def acs_request_pred (e : Entry) : Bool :=
  let urlLower := strLower e.request.url
  strContains urlLower "/acs" || strContains urlLower "/saml/acs" ||
  strContains urlLower "/consume"

/-- `SamlDetector::find_acs_request` (lookahead 5). -/
def find_acs_request (entries : Har) (start : Nat) : Option (Nat × Entry) :=
  findFrom acs_request_pred entries start 5

def logout_response_pred (e : Entry) : Bool :=
  strContains (strLower e.request.url) "samllogoutresponse="

/-- `SamlDetector::find_logout_response` (lookahead 5). -/
def find_logout_response (entries : Har) (start : Nat) : Option (Nat × Entry) :=
  findFrom logout_response_pred entries start 5

/-- The optional IdP-interaction step of an SP-initiated flow, searched
from `start_idx + 1`. -/
def sp_idp_steps (entries : Har) (i : Nat) : List SamlStep :=
  match find_idp_interaction entries (i + 1) with
  | none => []
  | some (ii, ie) => [mkSamlStep ii ie .IdpRedirect "User authentication at IdP"]

/-- The SAML-response (and chained ACS) steps of an SP-initiated flow,
also searched from `start_idx + 1`, plus the response-over-HTTP issue. -/
def sp_resp_result (entries : Har) (i : Nat) : List SamlStep × List SamlSecurityIssue :=
  match find_saml_response entries (i + 1) with
  | none => ([], [])
  | some (ri, re) =>
    let s2 := mkSamlStep ri re .SamlResponse "SAML Response received from IdP"
    let respIssues :=
      if strStarts re.request.url "http://" then
        [{ severity := Severity.Critical,
           message := "SAML Response sent over unencrypted HTTP",
           entry_index := ri : SamlSecurityIssue }]
      else []
    let acsSteps :=
      match find_acs_request entries (ri + 1) with
      | none => []
      | some (ai, ae) =>
        [mkSamlStep ai ae .AssertionConsumerService
          "Assertion Consumer Service processed response"]
    (s2 :: acsSteps, respIssues)

/-- `SamlDetector::build_sp_initiated_flow`: anchor, then the IdP
interaction and the SAML response are both searched from `start_idx + 1`
(the response scan does not resume after the IdP step), then the ACS
step from the response; recorded only with at least 2 steps.  Insecure
HTTP transport of the AuthnRequest or the SAML response pushes a
Critical issue regardless of whether the flow is recorded. -/
def build_sp_initiated_flow (entries : Har) (i : Nat) (e : Entry) :
    Option SamlFlow × List SamlSecurityIssue :=
  let s0 := mkSamlStep i e .AuthnRequest "SAML AuthnRequest sent to IdP"
  let authnIssues :=
    if strStarts e.request.url "http://" then
      [{ severity := Severity.Critical,
         message := "SAML AuthnRequest sent over unencrypted HTTP",
         entry_index := i : SamlSecurityIssue }]
    else []
  let steps := s0 :: sp_idp_steps entries i ++ (sp_resp_result entries i).1
  let flow :=
    if steps.length > 1 then
      some { flow_type := SamlFlowType.SpInitiated, start_time := s0.timestamp,
             end_time := steps.getLast?.map (·.timestamp), steps := steps,
             idp_entity_id := none, sp_entity_id := none }
    else none
  (flow, authnIssues ++ (sp_resp_result entries i).2)

/-- `SamlDetector::build_idp_initiated_flow`: response anchor plus an
optional ACS step; always recorded. -/
def build_idp_initiated_flow (entries : Har) (i : Nat) (e : Entry) : Option SamlFlow :=
  let s0 := mkSamlStep i e .SamlResponse "SAML Response received from IdP"
  let acsSteps :=
    match find_acs_request entries (i + 1) with
    | none => []
    | some (ai, ae) =>
      [mkSamlStep ai ae .AssertionConsumerService
        "Assertion Consumer Service processed response"]
  some { flow_type := SamlFlowType.IdpInitiated, start_time := s0.timestamp,
         end_time := (s0 :: acsSteps).getLast?.map (·.timestamp),
         steps := s0 :: acsSteps, idp_entity_id := none, sp_entity_id := none }

/-- `SamlDetector::build_logout_flow`: logout anchor plus an optional
logout-response step; always recorded. -/
def build_logout_flow (entries : Har) (i : Nat) (e : Entry) : Option SamlFlow :=
  let s0 := mkSamlStep i e .LogoutRequest "SAML Logout Request"
  let respSteps :=
    match find_logout_response entries (i + 1) with
    | none => []
    | some (ri, re) => [mkSamlStep ri re .LogoutResponse "SAML Logout Response"]
  some { flow_type := SamlFlowType.Logout, start_time := s0.timestamp,
         end_time := (s0 :: respSteps).getLast?.map (·.timestamp),
         steps := s0 :: respSteps, idp_entity_id := none, sp_entity_id := none }

/-- `SamlDetector::is_part_of_sp_flow`.  During the second detection
pass the accumulated vector holds the SP-initiated flows plus the
IdP-initiated flows recorded so far; the latter are ignored by the
`SpInitiated` type test, so checking against the complete SP list is
extensionally identical. -/
def is_part_of_sp_flow (flows : List SamlFlow) (idx : Nat) : Bool :=
  flows.any (fun f =>
    f.flow_type == SamlFlowType.SpInitiated &&
    f.steps.any (fun s => s.entry_index == idx))

/-- `SamlDetector::detect_flows`: SP-initiated pass (which also collects
the transport-security issues), IdP-initiated pass over responses not
consumed by an SP flow, then the logout pass. -/
def saml_detect_flows (har : Har) : List SamlFlow × List SamlSecurityIssue :=
  let spRes := (enumL 0 har).map (fun p =>
    if is_saml_authn_request p.2 then build_sp_initiated_flow har p.1 p.2
    else (none, []))
  let spFlows := spRes.filterMap (·.1)
  let issues := spRes.flatMap (·.2)
  let idpFlows := (enumL 0 har).filterMap (fun p =>
    if is_saml_response p.2 && !is_part_of_sp_flow spFlows p.1 then
      build_idp_initiated_flow har p.1 p.2
    else none)
  let logoutFlows := (enumL 0 har).filterMap (fun p =>
    if is_saml_logout_request p.2 then build_logout_flow har p.1 p.2 else none)
  (spFlows ++ idpFlows ++ logoutFlows, issues)

/-! ## Event Detector (`auth/events.rs`) -/

inductive AuthEventType where
  | LoginSuccess
  | LoginFailure
  | Logout
  | TokenRefresh
  | SessionExpired
  | PasswordReset
deriving DecidableEq, Repr

structure EventDetails where
  description : String
  credential_type : Option String
  error_message : Option String
deriving DecidableEq, Repr

structure AuthEvent where
  event_type : AuthEventType
  timestamp : String
  entry_index : Nat
  method : String
  url : String
  status : Int
  details : EventDetails
deriving DecidableEq, Repr

/-- `EventDetector::is_login_attempt`. -/
def is_login_attempt (e : Entry) : Bool :=
  if e.request.method != "POST" then false
  else
    let urlLower := strLower e.request.url
    let isLoginUrl :=
      strContains urlLower "/login" || strContains urlLower "/signin" ||
      strContains urlLower "/auth/login" || strContains urlLower "/api/auth" ||
      strContains urlLower "/authenticate"
    if !isLoginUrl then false
    else
      match postText e with
      | some text =>
        (strContains text "username" || strContains text "email" ||
         strContains text "\"user\"") && strContains text "password"
      | none => false
      -- The source's trailing `grant_type=password` probe also requires a
      -- post-data text, which the first probe already returned on, so it
      -- is unreachable.

/-- `EventDetector::is_successful_login`. -/
def is_successful_login (e : Entry) : Bool :=
  if e.response.status != 200 && e.response.status != 201 then false
  else if e.response.cookies.any (fun c =>
      let lower := strLower c.name
      strContains lower "session" || strContains lower "auth" ||
      strContains lower "token") then true
  else if strContains e.response.content.mime_type "application/json" &&
      (match e.response.content.text with
       | some text =>
         strContains text "\"token\"" || strContains text "\"access_token\"" ||
         strContains text "\"accessToken\""
       | none => false) then true
  else e.response.status ≥ 300 && e.response.status < 400

/-- `EventDetector::is_logout_request`. -/
def is_logout_request (e : Entry) : Bool :=
  let urlLower := strLower e.request.url
  (strContains urlLower "/logout" || strContains urlLower "/signout") &&
  (e.request.method == "GET" || e.request.method == "POST")

/-- `is_token_refresh_request`: identical private helpers in events.rs
and advanced_security.rs (modelled once). -/
def is_token_refresh_request (e : Entry) : Bool :=
  if e.request.method != "POST" then false
  else
    let urlLower := strLower e.request.url
    if !(strContains urlLower "/token" || strContains urlLower "/refresh") then false
    else
      match postText e with
      | some text =>
        strContains text "grant_type=refresh_token" ||
        strContains text "\"refresh_token\"" || strContains text "refreshToken"
      | none => false

/-- `EventDetector::is_session_expired_response`. -/
def is_session_expired_response (e : Entry) : Bool :=
  if e.response.status != 401 then false
  else
    let hasAuth := e.request.headers.any (fun h =>
      strLower h.name == "authorization" || strLower h.name == "cookie")
    if !hasAuth then false
    else
      match e.response.content.text with
      | some text =>
        let textLower := strLower text
        strContains textLower "expired" || strContains textLower "invalid" ||
        strContains textLower "unauthorized"
      | none => true

/-- `EventDetector::is_password_reset_request`. -/
def is_password_reset_request (e : Entry) : Bool :=
  let urlLower := strLower e.request.url
  (strContains urlLower "/reset" || strContains urlLower "/forgot") &&
  (strContains urlLower "password" || strContains urlLower "pwd") &&
  e.request.method == "POST"

/-- `EventDetector::detect_credential_type`. -/
def detect_credential_type (e : Entry) : Option String :=
  match postText e with
  | some text =>
    if strContains text "username" then some "username_password"
    else if strContains text "email" then some "email_password"
    else if strContains text "grant_type=password" then some "oauth_password"
    else none
  | none => none

/-- The quote-scanning extraction step shared by the `"error"` and
`"message"` probes of `extract_error_message`: find the field, the next
colon, then the next pair of double quotes. -/
def extractQuoted (fieldPat : List Char) (text : List Char) : Option String :=
  match findSub fieldPat text with
  | none => none
  | some start =>
    match findSub [':'] (text.drop start) with
    | none => none
    | some colon =>
      let afterColon := text.drop (start + colon + 1)
      match findSub ['"'] afterColon with
      | none => none
      | some qs =>
        match findSub ['"'] (afterColon.drop (qs + 1)) with
        | none => none
        | some qe => some ⟨(afterColon.drop (qs + 1)).take qe⟩

/-- `EventDetector::extract_error_message`. -/
def extract_error_message (e : Entry) : Option String :=
  match e.response.content.text with
  | none => none
  | some text =>
    if strContains e.response.content.mime_type "application/json" then
      match extractQuoted "\"error\"".data text.data with
      | some m => some m
      | none => extractQuoted "\"message\"".data text.data
    else none

/-- `EventDetector::detect_login_events`. -/
def detect_login_events (har : Har) : List AuthEvent :=
  (enumL 0 har).filterMap (fun p =>
    if is_login_attempt p.2 then
      let isSuccess := is_successful_login p.2
      some { event_type := if isSuccess then .LoginSuccess else .LoginFailure,
             timestamp := p.2.started_date_time, entry_index := p.1,
             method := p.2.request.method, url := truncate_url p.2.request.url,
             status := p.2.response.status,
             details :=
               { description :=
                   if isSuccess then "User successfully authenticated"
                   else "Login attempt failed",
                 credential_type := detect_credential_type p.2,
                 error_message :=
                   if !isSuccess then extract_error_message p.2 else none } }
    else none)

/-- `EventDetector::detect_logout_events`. -/
def detect_logout_events (har : Har) : List AuthEvent :=
  (enumL 0 har).filterMap (fun p =>
    if is_logout_request p.2 then
      some { event_type := .Logout, timestamp := p.2.started_date_time,
             entry_index := p.1, method := p.2.request.method,
             url := truncate_url p.2.request.url, status := p.2.response.status,
             details := { description := "User logged out",
                          credential_type := none, error_message := none } }
    else none)

/-- `EventDetector::detect_token_refresh_events`. -/
def detect_token_refresh_events (har : Har) : List AuthEvent :=
  (enumL 0 har).filterMap (fun p =>
    if is_token_refresh_request p.2 then
      let isSuccess := p.2.response.status == 200
      some { event_type := .TokenRefresh, timestamp := p.2.started_date_time,
             entry_index := p.1, method := p.2.request.method,
             url := truncate_url p.2.request.url, status := p.2.response.status,
             details :=
               { description :=
                   if isSuccess then "Access token refreshed successfully"
                   else "Token refresh failed",
                 credential_type := some "refresh_token",
                 error_message :=
                   if !isSuccess then extract_error_message p.2 else none } }
    else none)

/-- `EventDetector::detect_session_expiration_events`. -/
def detect_session_expiration_events (har : Har) : List AuthEvent :=
  (enumL 0 har).filterMap (fun p =>
    if is_session_expired_response p.2 then
      some { event_type := .SessionExpired, timestamp := p.2.started_date_time,
             entry_index := p.1, method := p.2.request.method,
             url := truncate_url p.2.request.url, status := p.2.response.status,
             details := { description := "Session expired or invalid",
                          credential_type := none,
                          error_message := extract_error_message p.2 } }
    else none)

/-- `EventDetector::detect_password_reset_events`. -/
def detect_password_reset_events (har : Har) : List AuthEvent :=
  (enumL 0 har).filterMap (fun p =>
    if is_password_reset_request p.2 then
      some { event_type := .PasswordReset, timestamp := p.2.started_date_time,
             entry_index := p.1, method := p.2.request.method,
             url := truncate_url p.2.request.url, status := p.2.response.status,
             details := { description := "Password reset request",
                          credential_type := none, error_message := none } }
    else none)

def eventLt (a b : AuthEvent) : Bool := strLt a.timestamp b.timestamp

/-- `EventDetector::detect_events`: the five passes concatenated, then a
stable sort by timestamp. -/
def detect_events (har : Har) : List AuthEvent :=
  sortByStable eventLt
    (detect_login_events har ++ detect_logout_events har ++
     detect_token_refresh_events har ++ detect_session_expiration_events har ++
     detect_password_reset_events har)

/-! ## JWT Analyzer (`auth/jwt.rs`)

The base64url decoding and JSON parsing of the header and payload
segments are performed by the external `base64` and `serde_json` crates;
the two segment parsers are therefore parameters (`ph`, `pc`) of every
definition below.  A `none` result models the `Err` that silently drops
the token candidate. -/

structure JwtHeader where
  alg : Option String
  typ : Option String
  kid : Option String
deriving DecidableEq, Repr

structure JwtClaims where
  iss : Option String
  sub : Option String
  aud : Option String
  exp : Option Int
  nbf : Option Int
  iat : Option Int
  jti : Option String
deriving DecidableEq, Repr

structure JwtToken where
  raw_token : String
  header : JwtHeader
  claims : JwtClaims
  signature_present : Bool
  first_seen : String
  last_seen : String
  usage_count : Nat
  entry_indices : List Nat
deriving DecidableEq, Repr

inductive JwtIssueType where
  | WeakAlgorithm
  | NoAlgorithm
  | Expired
  | MissingExpiration
  | TokenInUrl
  | LongLivedToken
  | MissingSignature
deriving DecidableEq, Repr

structure JwtSecurityIssue where
  severity : Severity
  issue_type : JwtIssueType
  message : String
  token_preview : String
deriving DecidableEq, Repr

/-- `JwtAnalyzer::is_jwt`: 3 dot-separated parts; each part must be
nonempty unless the third (signature) part is empty, in which case the
test degenerates to the part count alone. -/
def is_jwt_lax (token : String) : Bool :=
  match splitDot token.data with
  | [a, b, c] => [a, b, c].all (fun p => !p.isEmpty || c.isEmpty)
  | _ => false

/-- `JwtAnalyzer::truncate_token`: over 50 characters, keep the first
and last 25 around an ellipsis. -/
def truncate_token (token : String) : String :=
  if token.length > 50 then
    strTake token 25 ++ "..." ++ ⟨token.data.drop (token.length - 25)⟩
  else token

/-- `JwtAnalyzer::parse_jwt` (header/payload decoding via `ph`/`pc`). -/
def parse_jwt (ph : String → Option JwtHeader) (pc : String → Option JwtClaims)
    (token ts : String) : Option JwtToken :=
  match splitDot token.data with
  | [h, c, s] =>
    match ph ⟨h⟩, pc ⟨c⟩ with
    | some header, some claims =>
      some { raw_token := truncate_token token, header := header, claims := claims,
             signature_present := !s.isEmpty, first_seen := ts, last_seen := ts,
             usage_count := 1, entry_indices := [] }
    | _, _ => none
  | _ => none

/-- `JwtAnalyzer::analyze_token_security`. -/
def analyze_token_security (t : JwtToken) (inUrl : Bool) : List JwtSecurityIssue :=
  let algIssues :=
    match t.header.alg with
    | some alg =>
      let algLower := strLower alg
      if algLower == "none" then
        [{ severity := Severity.Critical, issue_type := JwtIssueType.NoAlgorithm,
           message := "JWT using \x27none\x27 algorithm (no signature verification)",
           token_preview := t.raw_token : JwtSecurityIssue }]
      else if algLower == "hs256" || algLower == "hs384" || algLower == "hs512" then
        [{ severity := Severity.Info, issue_type := JwtIssueType.WeakAlgorithm,
           message := "JWT using symmetric algorithm " ++ alg ++ " (shared secret)",
           token_preview := t.raw_token : JwtSecurityIssue }]
      else []
    | none => []
  let expIssues :=
    match t.claims.exp, t.claims.iat with
    | some exp, some iat =>
      let lifetime := exp - iat
      if lifetime > 86400 then
        [{ severity := Severity.Warning, issue_type := JwtIssueType.LongLivedToken,
           message := "JWT has long lifetime: " ++ toString (lifetime / 3600) ++ " hours",
           token_preview := t.raw_token : JwtSecurityIssue }]
      else []
    | none, _ =>
      [{ severity := Severity.Warning, issue_type := JwtIssueType.MissingExpiration,
         message := "JWT missing expiration claim (exp)",
         token_preview := t.raw_token : JwtSecurityIssue }]
    | some _, none => []
  let sigIssues :=
    if !t.signature_present then
      [{ severity := Severity.Critical, issue_type := JwtIssueType.MissingSignature,
         message := "JWT missing signature component",
         token_preview := t.raw_token : JwtSecurityIssue }]
    else []
  let urlIssues :=
    if inUrl then
      [{ severity := Severity.Critical, issue_type := JwtIssueType.TokenInUrl,
         message := "JWT token transmitted in URL (visible in logs)",
         token_preview := t.raw_token : JwtSecurityIssue }]
    else []
  algIssues ++ expIssues ++ sigIssues ++ urlIssues

/-- The analyzer's running state: the dedup map (key, token, pushed
entry indices) in canonical insertion order, and the issue list. -/
abbrev JwtState := List (String × JwtToken × List Nat) × List JwtSecurityIssue

/-- `JwtAnalyzer::process_jwt_token`: group by the leading 20
characters; repeats update `last_seen` and append the entry index, new
tokens are parsed and security-audited once. -/
def process_jwt_token (ph : String → Option JwtHeader) (pc : String → Option JwtClaims)
    (token : String) (idx : Nat) (ts : String) (inUrl : Bool) (st : JwtState) : JwtState :=
  let key := if token.length > 20 then strTake token 20 else token
  if st.1.any (fun p => p.1 == key) then
    (st.1.map (fun p =>
       if p.1 == key then (p.1, { p.2.1 with last_seen := ts }, p.2.2 ++ [idx]) else p),
     st.2)
  else
    match parse_jwt ph pc token ts with
    | some t => (st.1 ++ [(key, t, [idx])], st.2 ++ analyze_token_security t inUrl)
    | none => st

/-- `JwtAnalyzer::extract_tokens_from_json`: quote-scanning probe of the
five token field names, in order. -/
def extract_tokens_from_json (ph : String → Option JwtHeader)
    (pc : String → Option JwtClaims) (jsonText : String) (idx : Nat) (ts : String)
    (st : JwtState) : JwtState :=
  ["token", "access_token", "accessToken", "id_token", "idToken"].foldl
    (fun st field =>
      match findSub ("\"" ++ field ++ "\"").data jsonText.data with
      | none => st
      | some start =>
        match findSub [':'] (jsonText.data.drop start) with
        | none => st
        | some colon =>
          let afterColon := jsonText.data.drop (start + colon + 1)
          match findSub ['"'] afterColon with
          | none => st
          | some qs =>
            match findSub ['"'] (afterColon.drop (qs + 1)) with
            | none => st
            | some qe =>
              let token : String := ⟨(afterColon.drop (qs + 1)).take qe⟩
              if is_jwt_lax token then process_jwt_token ph pc token idx ts false st
              else st)
    st

/-- One entry's contribution to `JwtAnalyzer::analyze`: the
Authorization headers, the JSON response body, and the token-in-URL
check. -/
def jwtEntryStep (ph : String → Option JwtHeader) (pc : String → Option JwtClaims)
    (st : JwtState) (p : Nat × Entry) : JwtState :=
  let st1 := p.2.request.headers.foldl
    (fun st h =>
      if strLower h.name == "authorization" then
        match extract_bearer_token h.value with
        | some token =>
          if is_jwt_lax token then
            process_jwt_token ph pc token p.1 p.2.started_date_time false st
          else st
        | none => st
      else st)
    st
  let st2 :=
    match p.2.response.content.text with
    | some text =>
      if strContains p.2.response.content.mime_type "application/json" then
        extract_tokens_from_json ph pc text p.1 p.2.started_date_time st1
      else st1
    | none => st1
  if strContains p.2.request.url "Bearer%20" || strContains p.2.request.url "eyJ" then
    (st2.1,
     st2.2 ++ [{ severity := Severity.Critical, issue_type := JwtIssueType.TokenInUrl,
                 message := "JWT token found in URL at entry " ++ toString p.1,
                 token_preview := truncate_url p.2.request.url }])
  else st2

/-- `JwtAnalyzer::analyze`: scan all entries, then flush the dedup map
(canonical insertion order; the real `HashMap` iteration order is
arbitrary), filling in `entry_indices` and `usage_count`. -/
def jwt_analyze (ph : String → Option JwtHeader) (pc : String → Option JwtClaims)
    (har : Har) : List JwtToken × List JwtSecurityIssue :=
  let st := (enumL 0 har).foldl (jwtEntryStep ph pc) ([], [])
  (st.1.map (fun p =>
     { p.2.1 with entry_indices := p.2.2, usage_count := p.2.2.length }),
   st.2)

/-! ## Advanced Security Analyzer (`auth/advanced_security.rs`) -/

inductive ExposureType where
  | TokenInUrl
  | TokenInQueryParam
  | TokenInReferer
  | CredentialsInUrl
  | SensitiveDataInUrl
deriving DecidableEq, Repr

structure TokenExposure where
  severity : Severity
  exposure_type : ExposureType
  location : String
  entry_index : Nat
  message : String
deriving DecidableEq, Repr

inductive CorsIssueType where
  | WildcardWithCredentials
  | OverlyPermissiveOrigin
  | MissingCorsHeaders
  | InsecureOrigin
deriving DecidableEq, Repr

structure CorsIssue where
  severity : Severity
  issue_type : CorsIssueType
  origin : String
  entry_index : Nat
  message : String
deriving DecidableEq, Repr

inductive CspFindingType where
  | MissingCsp
  | UnsafeInline
  | UnsafeEval
  | WildcardSource
  | WeakPolicy
deriving DecidableEq, Repr

structure CspFinding where
  severity : Severity
  finding_type : CspFindingType
  entry_index : Nat
  message : String
  policy : Option String
deriving DecidableEq, Repr

inductive RefreshPatternType where
  | ProactiveRefresh
  | OnDemandRefresh
  | AutomaticRotation
  | ManualRefresh
deriving DecidableEq, Repr

/-- `TokenRefreshPattern` (the float `frequency` and `token_lifetime`
fields are omitted, see module conventions). -/
structure TokenRefreshPattern where
  pattern_type : RefreshPatternType
  refresh_count : Nat
  entry_indices : List Nat
  description : String
deriving DecidableEq, Repr

structure AdvancedSecurityAnalysis where
  token_exposures : List TokenExposure
  cors_issues : List CorsIssue
  csp_findings : List CspFinding
  refresh_patterns : List TokenRefreshPattern
deriving DecidableEq, Repr

/-- `AdvancedSecurityAnalyzer::truncate_url` (longer limit than the flow
detectors: 100/97). -/
def truncate_url_adv (url : String) : String :=
  if url.length > 100 then strTake url 97 ++ "..." else url

def has_token_in_url (url : String) : Bool :=
  let urlLower := strLower url
  strContains urlLower "token=" || strContains urlLower "access_token=" ||
  strContains urlLower "auth_token=" || strContains urlLower "bearer%20" ||
  strContains url "eyJ"

def has_credentials_in_query (url : String) : Bool :=
  let urlLower := strLower url
  (strContains urlLower "username=" || strContains urlLower "user=" ||
   strContains urlLower "email=") && strContains urlLower "password="

def has_sensitive_data_in_url (url : String) : Bool :=
  let urlLower := strLower url
  strContains urlLower "api_key=" || strContains urlLower "apikey=" ||
  strContains urlLower "secret=" || strContains urlLower "key="

def is_cors_request (e : Entry) : Bool :=
  e.request.headers.any (fun h => strLower h.name == "origin")

/-- `AdvancedSecurityAnalyzer::detect_token_exposures`. -/
def detect_token_exposures (har : Har) : List TokenExposure :=
  (enumL 0 har).flatMap (fun p =>
    let url := p.2.request.url
    (if has_token_in_url url then
       [{ severity := Severity.Critical, exposure_type := ExposureType.TokenInUrl,
          location := truncate_url_adv url, entry_index := p.1,
          message := "Authentication token found in URL (will be logged)" :
            TokenExposure }]
     else []) ++
    (if has_credentials_in_query url then
       [{ severity := Severity.Critical, exposure_type := ExposureType.CredentialsInUrl,
          location := truncate_url_adv url, entry_index := p.1,
          message := "Credentials (username/password) found in URL" : TokenExposure }]
     else []) ++
    (if has_sensitive_data_in_url url then
       [{ severity := Severity.Warning, exposure_type := ExposureType.SensitiveDataInUrl,
          location := truncate_url_adv url, entry_index := p.1,
          message := "Potentially sensitive data in URL" : TokenExposure }]
     else []) ++
    p.2.request.headers.filterMap (fun h =>
      if strLower h.name == "referer" && has_token_in_url h.value then
        some { severity := Severity.Warning, exposure_type := ExposureType.TokenInReferer,
               location := truncate_url_adv h.value, entry_index := p.1,
               message := "Token leaked in Referer header" }
      else none))

/-- `AdvancedSecurityAnalyzer::analyze_cors`, one entry: fold the
response headers updating the last-seen allow-origin value and
credentials flag and emitting `InsecureOrigin` per `http://` origin
header, then the wildcard-with-credentials and missing-headers checks. -/
def corsEntry (p : Nat × Entry) : List CorsIssue :=
  let scanned := p.2.response.headers.foldl
    (fun (st : Option String × Bool × List CorsIssue) h =>
      let nameLower := strLower h.name
      if nameLower == "access-control-allow-origin" then
        let insecure :=
          if h.value == "*" then []
          else if strStarts h.value "http://" then
            [{ severity := Severity.Warning, issue_type := CorsIssueType.InsecureOrigin,
               origin := h.value, entry_index := p.1,
               message := "CORS allows insecure HTTP origin" : CorsIssue }]
          else []
        (some h.value, st.2.1, st.2.2 ++ insecure)
      else if nameLower == "access-control-allow-credentials" then
        (st.1, strLower h.value == "true", st.2.2)
      else st)
    (none, false, [])
  let wildcard :=
    match scanned.1 with
    | some origin =>
      if origin == "*" && scanned.2.1 then
        [{ severity := Severity.Critical,
           issue_type := CorsIssueType.WildcardWithCredentials,
           origin := origin, entry_index := p.1,
           message := "CORS wildcard (*) used with credentials (security risk)" :
             CorsIssue }]
      else []
    | none => []
  let missing :=
    if is_cors_request p.2 && scanned.1.isNone then
      [{ severity := Severity.Info, issue_type := CorsIssueType.MissingCorsHeaders,
         origin := "unknown", entry_index := p.1,
         message := "Cross-origin request without CORS headers" : CorsIssue }]
    else []
  scanned.2.2 ++ wildcard ++ missing

/-- `AdvancedSecurityAnalyzer::analyze_cors`. -/
def analyze_cors (har : Har) : List CorsIssue :=
  (enumL 0 har).flatMap corsEntry

/-- One CSP header's findings (`analyze_csp` inner loop body). -/
def cspHeaderFindings (i : Nat) (value : String) : List CspFinding :=
  let policyLower := strLower value
  (if strContains policyLower "\x27unsafe-inline\x27" then
     [{ severity := Severity.Warning, finding_type := CspFindingType.UnsafeInline,
        entry_index := i, message := "CSP allows \x27unsafe-inline\x27 (XSS risk)",
        policy := some value : CspFinding }]
   else []) ++
  (if strContains policyLower "\x27unsafe-eval\x27" then
     [{ severity := Severity.Warning, finding_type := CspFindingType.UnsafeEval,
        entry_index := i,
        message := "CSP allows \x27unsafe-eval\x27 (code injection risk)",
        policy := some value : CspFinding }]
   else []) ++
  (if strContains policyLower "*" && !strContains policyLower "data:" then
     [{ severity := Severity.Warning, finding_type := CspFindingType.WildcardSource,
        entry_index := i, message := "CSP uses wildcard source (overly permissive)",
        policy := some value : CspFinding }]
   else [])

def isCspHeader (h : Header) : Bool :=
  strLower h.name == "content-security-policy" ||
  strLower h.name == "content-security-policy-report-only"

/-- `AdvancedSecurityAnalyzer::analyze_csp`: per-HTML-response findings
plus one aggregate `MissingCsp` Info finding counting the HTML responses
with no CSP header at all. -/
def analyze_csp (har : Har) : List CspFinding :=
  let htmlEntries := (enumL 0 har).filter
    (fun p => strContains p.2.response.content.mime_type "text/html")
  let findings := htmlEntries.flatMap (fun p =>
    (p.2.response.headers.filter isCspHeader).flatMap
      (fun h => cspHeaderFindings p.1 h.value))
  let noCspCount :=
    (htmlEntries.filter (fun p => !(p.2.response.headers.any isCspHeader))).length
  if noCspCount > 0 then
    findings ++
    [{ severity := Severity.Info, finding_type := CspFindingType.MissingCsp,
       entry_index := 0,
       message := toString noCspCount ++
         " HTML response(s) without Content-Security-Policy header",
       policy := none }]
  else findings

/-- `AdvancedSecurityAnalyzer::analyze_refresh_patterns`. -/
def analyze_refresh_patterns (har : Har) : List TokenRefreshPattern :=
  let refreshRequests := (enumL 0 har).filter (fun p => is_token_refresh_request p.2)
  if refreshRequests.length > 1 then
    [{ pattern_type :=
         if refreshRequests.length ≥ 3 then RefreshPatternType.AutomaticRotation
         else RefreshPatternType.OnDemandRefresh,
       refresh_count := refreshRequests.length,
       entry_indices := refreshRequests.map (·.1),
       description := "Token refreshed " ++ toString refreshRequests.length ++
         " times during session" }]
  else []

/-- `AdvancedSecurityAnalyzer::analyze`. -/
def advanced_analyze (har : Har) : AdvancedSecurityAnalysis :=
  { token_exposures := detect_token_exposures har,
    cors_issues := analyze_cors har,
    csp_findings := analyze_csp har,
    refresh_patterns := analyze_refresh_patterns har }

/-! ## Security Note Analyzer (`auth/security.rs`) -/

structure SecurityNote where
  severity : Severity
  category : String
  message : String
  entry_index : Option Nat
deriving DecidableEq, Repr

/-- `SecurityAnalyzer::analyze_methods`. -/
def analyze_methods (methods : List AuthMethod) : List SecurityNote :=
  methods.flatMap (fun m =>
    match m with
    | .Basic =>
      [{ severity := Severity.Warning, category := "Authentication Method",
         message :=
           "Basic Authentication detected - credentials encoded in header (use HTTPS)",
         entry_index := none }]
    | .ApiKey _ =>
      [{ severity := Severity.Info, category := "Authentication Method",
         message := "API Key authentication detected", entry_index := none }]
    | _ => [])

/-- `SecurityAnalyzer::analyze_sessions`, one session's notes. -/
def sessionNotes (har : Har) (s : AuthSession) : List SecurityNote :=
  match s.session_type with
  | .Cookie name =>
    match s.attributes with
    | some attrs =>
      (if attrs.http_only == some false || attrs.http_only.isNone then
         [{ severity := Severity.Warning, category := "Cookie Security",
            message := "Cookie \x27" ++ name ++
              "\x27 missing HttpOnly flag (vulnerable to XSS)",
            entry_index := s.entry_indices.head? : SecurityNote }]
       else []) ++
      (match s.entry_indices.head? with
       | some firstIdx =>
         match har.get? firstIdx with
         | some e =>
           if strStarts e.request.url "https://" &&
              (attrs.secure == some false || attrs.secure.isNone) then
             [{ severity := Severity.Warning, category := "Cookie Security",
                message := "Cookie \x27" ++ name ++
                  "\x27 on HTTPS connection missing Secure flag",
                entry_index := some firstIdx : SecurityNote }]
           else []
         | none => []
       | none => []) ++
      (if attrs.same_site.isNone then
         [{ severity := Severity.Info, category := "Cookie Security",
            message := "Cookie \x27" ++ name ++
              "\x27 missing SameSite attribute (consider setting to Lax or Strict)",
            entry_index := s.entry_indices.head? : SecurityNote }]
       else [])
    | none => []
  | .BearerToken isJwt =>
    if isJwt then
      [{ severity := Severity.Info, category := "Token Security",
         message := "JWT tokens detected - ensure tokens are validated and not expired",
         entry_index := s.entry_indices.head? }]
    else []
  | .ApiKey _ =>
    match s.entry_indices.head? with
    | some firstIdx =>
      match har.get? firstIdx with
      | some e =>
        if strContains e.request.url "api_key=" || strContains e.request.url "apikey=" ||
           strContains e.request.url "key=" then
          [{ severity := Severity.Warning, category := "API Key Security",
             message :=
               "API key detected in query parameter (prefer header-based authentication)",
             entry_index := some firstIdx }]
        else []
      | none => []
    | none => []

/-- `SecurityAnalyzer::analyze_sessions`. -/
def analyze_sessions (sessions : List AuthSession) (har : Har) : List SecurityNote :=
  sessions.flatMap (sessionNotes har)

/-- `SecurityAnalyzer::is_auth_cookie` (security.rs variant: `sid` by
substring). -/
def is_auth_cookie_sec (name : String) : Bool :=
  let lower := strLower name
  strContains lower "session" || strContains lower "auth" ||
  strContains lower "token" || strContains lower "jwt" || strContains lower "sid"

/-- `SecurityAnalyzer::analyze_requests`: one Critical note for the
first transaction sending authentication material over plain HTTP. -/
def analyze_requests (har : Har) : List SecurityNote :=
  ((enumL 0 har).foldl
    (fun (st : Bool × List SecurityNote) p =>
      if strStarts p.2.request.url "http://" then
        let hasAuth := p.2.request.headers.any (fun h =>
          let nameLower := strLower h.name
          nameLower == "authorization" || strContains nameLower "api")
        let hasAuthCookie := p.2.request.cookies.any (fun c => is_auth_cookie_sec c.name)
        if (hasAuth || hasAuthCookie) && !st.1 then
          (true,
           st.2 ++ [{ severity := Severity.Critical, category := "Transport Security",
                      message :=
                        "Authentication credentials sent over unencrypted HTTP connection (use HTTPS)",
                      entry_index := some p.1 }])
        else st
      else st)
    (false, [])).2

/-- `SecurityAnalyzer::analyze`. -/
def security_analyze (har : Har) (methods : List AuthMethod)
    (sessions : List AuthSession) : List SecurityNote :=
  analyze_methods methods ++ analyze_sessions sessions har ++ analyze_requests har

/-! ## Orchestrator (`auth/analyzer.rs`) -/

structure AuthAnalysis where
  methods : List AuthMethod
  sessions : List AuthSession
  flows : List AuthFlow
  events : List AuthEvent
  security_notes : List SecurityNote
  jwt_tokens : List JwtToken
  jwt_issues : List JwtSecurityIssue
  saml_flows : List SamlFlow
  saml_issues : List SamlSecurityIssue
  advanced_security : AdvancedSecurityAnalysis
deriving DecidableEq, Repr

/-- `AuthAnalyzer::analyze`: runs the eight detectors over the shared
immutable entry list and assembles the aggregate result. -/
def auth_analyze (ph : String → Option JwtHeader) (pc : String → Option JwtClaims)
    (har : Har) : AuthAnalysis :=
  let methods := detect har
  let sessions := track_sessions har
  let jwtRes := jwt_analyze ph pc har
  let samlRes := saml_detect_flows har
  { methods := methods,
    sessions := sessions,
    flows := detect_flows har,
    events := detect_events har,
    security_notes := security_analyze har methods sessions,
    jwt_tokens := jwtRes.1,
    jwt_issues := jwtRes.2,
    saml_flows := samlRes.1,
    saml_issues := samlRes.2,
    advanced_security := advanced_analyze har }

/-- The possible observable results of one `AuthDetector::detect` run:
the `HashSet` of methods is iterated in an arbitrary order when it is
collected into the output vector, so any permutation of the
(deterministic, duplicate-free) set contents — modelled canonically by
`detect` — is a possible output. -/
def methodsRun (har : Har) (out : List AuthMethod) : Prop :=
  List.Perm out (detect har)

/-- The possible observable token lists of one `JwtAnalyzer::analyze`
run: `tokens_map` is a `HashMap` flushed in an arbitrary iteration
order, so any permutation of the canonical token list is a possible
output.  The issue list is pushed during the (deterministic) entry
scan, so it does not vary. -/
def jwtTokensRun (ph : String → Option JwtHeader) (pc : String → Option JwtClaims)
    (har : Har) (out : List JwtToken) : Prop :=
  List.Perm out (jwt_analyze ph pc har).1

/-- The possible observable results of one `AuthAnalyzer::analyze` run.
The methods list, the session list and the JWT token list vary with
hash iteration order (`methodsRun`, `sessionsRun`, `jwtTokensRun`); the
security notes are computed from the run's own methods and sessions
lists; every other component is a deterministic function of the input
(the flow, event, SAML and advanced-security detectors use no hash
containers). -/
def analyzeRun (ph : String → Option JwtHeader) (pc : String → Option JwtClaims)
    (har : Har) (out : AuthAnalysis) : Prop :=
  ∃ ms ss ts, methodsRun har ms ∧ sessionsRun har ss ∧ jwtTokensRun ph pc har ts ∧
    out = { methods := ms,
            sessions := ss,
            flows := detect_flows har,
            events := detect_events har,
            security_notes := security_analyze har ms ss,
            jwt_tokens := ts,
            jwt_issues := (jwt_analyze ph pc har).2,
            saml_flows := (saml_detect_flows har).1,
            saml_issues := (saml_detect_flows har).2,
            advanced_security := advanced_analyze har }

/-! ## Summary / Aggregation layer (`auth/summary.rs`) -/

inductive ConfidenceLevel where
  | High
  | Medium
  | Low
deriving DecidableEq, Repr

structure AuthMethodSummary where
  method_type : String
  description : String
  confidence : ConfidenceLevel
deriving DecidableEq, Repr

structure SessionMechanismSummary where
  mechanism_type : String
  details : String
deriving DecidableEq, Repr

structure EndpointInfo where
  method : String
  path : String
  purpose : String
deriving DecidableEq, Repr

structure HawkScanConfig where
  auth_type : String
  config_snippet : String
  notes : List String
deriving DecidableEq, Repr

structure AuthenticationSummary where
  primary_method : AuthMethodSummary
  session_mechanism : SessionMechanismSummary
  key_endpoints : List EndpointInfo
  hawkscan_config : HawkScanConfig
  additional_info : List String
deriving DecidableEq, Repr

structure AggregatedFinding where
  finding_type : String
  message : String
  count : Nat
  sample_entries : List Nat
deriving DecidableEq, Repr

structure SecurityFindingsSummary where
  critical : List AggregatedFinding
  warnings : List AggregatedFinding
  info : List AggregatedFinding
deriving DecidableEq, Repr

/-- `AuthFlowType::as_str`. -/
def flow_type_as_str : AuthFlowType → String
  | .OAuth2AuthorizationCode true => "OAuth 2.0 Authorization Code (with PKCE)"
  | .OAuth2AuthorizationCode false => "OAuth 2.0 Authorization Code"
  | .OAuth2ClientCredentials => "OAuth 2.0 Client Credentials"
  | .OAuth2Implicit => "OAuth 2.0 Implicit"
  | .FormBased => "Form-based Login"
  | .JsonApi => "JSON API Authentication"
  | .Unknown => "Unknown"

def isOauthFlowType : AuthFlowType → Bool
  | .OAuth2AuthorizationCode _ => true
  | .OAuth2ClientCredentials => true
  | .OAuth2Implicit => true
  | _ => false

/-- `AuthSummaryGenerator::determine_primary_method`: the priority chain
OAuth2 flow, SAML flow, JWT token, first session, form-based flow,
JSON-API flow, Basic method, any method, none. -/
def determine_primary_method (a : AuthAnalysis) : AuthMethodSummary :=
  match a.flows.find? (fun f => isOauthFlowType f.flow_type) with
  | some oauthFlow =>
    let pkce := oauthFlow.flow_type == AuthFlowType.OAuth2AuthorizationCode true
    { method_type :=
        if pkce then "OAuth 2.0 Authorization Code with PKCE"
        else flow_type_as_str oauthFlow.flow_type,
      description := "OAuth 2.0 flow detected with token-based authentication",
      confidence := .High }
  | none =>
    if !a.saml_flows.isEmpty then
      { method_type := "SAML SSO",
        description := toString a.saml_flows.length ++ " SAML flow(s) detected",
        confidence := .High }
    else if !a.jwt_tokens.isEmpty then
      { method_type := "JWT Bearer Token",
        description := "JWT tokens in Authorization header (algorithm: " ++
          (match a.jwt_tokens.head? with
           | some t => t.header.alg.getD "unknown"
           | none => "unknown") ++ ")",
        confidence := .High }
    else
      match a.sessions.head? with
      | some session =>
        match session.session_type with
        | .Cookie name =>
          { method_type := "Cookie-Based Session",
            description := "Session cookie: " ++ name, confidence := .High }
        | .BearerToken isJwt =>
          { method_type := if isJwt then "JWT Bearer Token" else "Bearer Token",
            description := "Token-based authentication in Authorization header",
            confidence := .High }
        | .ApiKey headerName =>
          { method_type := "API Key",
            description := "API key in " ++ headerName ++ " header",
            confidence := .High }
      | none =>
        if a.flows.any (fun f => f.flow_type == AuthFlowType.FormBased) then
          { method_type := "Form-Based Login",
            description := "Traditional form-based authentication flow detected",
            confidence := .Medium }
        else if a.flows.any (fun f => f.flow_type == AuthFlowType.JsonApi) then
          { method_type := "JSON API Authentication",
            description := "JSON-based authentication endpoint detected",
            confidence := .Medium }
        else if a.methods.any (fun m => m == AuthMethod.Basic) then
          { method_type := "HTTP Basic Authentication",
            description := "Username and password in Authorization header",
            confidence := .High }
        else if !a.methods.isEmpty then
          { method_type := "Unknown Authentication",
            description := toString a.methods.length ++
              " authentication method(s) detected but type unclear",
            confidence := .Low }
        else
          { method_type := "None Detected",
            description := "No clear authentication mechanism found in HAR file",
            confidence := .Low }

/-- `AuthSummaryGenerator::determine_session_mechanism`. -/
def determine_session_mechanism (a : AuthAnalysis) : SessionMechanismSummary :=
  if !a.jwt_tokens.isEmpty then
    { mechanism_type := "Stateless (JWT)",
      details := "JWT tokens with " ++
        toString
          (match a.jwt_tokens.head? with
           | some t =>
             match t.claims.exp, t.claims.iat with
             | some exp, some iat => exp - iat
             | _, _ => 0
           | none => 0) ++ "-second lifetime" }
  else
    match a.sessions.find? (fun s =>
        match s.session_type with | .Cookie _ => true | _ => false) with
    | some session =>
      match session.session_type with
      | .Cookie name =>
        { mechanism_type := "Stateful (Server-Side Sessions)",
          details := "Session cookie: " ++ name ++ " (" ++
            toString session.request_count ++ " requests)" }
      | _ =>
        { mechanism_type := "Unknown",
          details := "Could not determine session mechanism" }
    | none =>
      if a.sessions.any (fun s =>
          match s.session_type with | .BearerToken _ => true | _ => false) then
        { mechanism_type := "Token-Based",
          details := "Bearer tokens in Authorization header" }
      else if a.sessions.any (fun s =>
          match s.session_type with | .ApiKey _ => true | _ => false) then
        { mechanism_type := "API Key", details := "Static API key authentication" }
      else
        { mechanism_type := "Unknown",
          details := "Could not determine session mechanism" }

/-- `AuthSummaryGenerator::extract_key_endpoints`, parameterised by the
`url`-crate-backed `extract_path` (`ep`): deduplicate step URLs by path
across auth flows then SAML flows, keeping the first ten. -/
def extract_key_endpoints (ep : String → String) (a : AuthAnalysis) : List EndpointInfo :=
  let stepFold := fun (st : List String × List EndpointInfo)
      (method url desc : String) =>
    let path := ep url
    if !path.isEmpty && !(st.1.contains path) then
      (st.1 ++ [path], st.2 ++ [{ method := method, path := path, purpose := desc }])
    else st
  let st1 := a.flows.foldl
    (fun st flow => flow.steps.foldl
      (fun st s => stepFold st s.method s.url s.description) st)
    ([], [])
  let st2 := a.saml_flows.foldl
    (fun st flow => flow.steps.foldl
      (fun st s => stepFold st s.method s.url s.description) st)
    st1
  st2.2.take 10

/-- `AuthSummaryGenerator::generate_hawkscan_config`. -/
def generate_hawkscan_config (primary : AuthMethodSummary) (a : AuthAnalysis) :
    HawkScanConfig :=
  if strContains primary.method_type "Cookie" then
    match a.sessions.head? with
    | some session =>
      match session.session_type with
      | .Cookie name =>
        { auth_type := "cookieAuthn",
          config_snippet :=
            "authentication:\n  type: cookieAuthn\n  cookieName: " ++ name ++
            "\n  cookieValue: \"$\x7bAUTH_COOKIE\x7d\"",
          notes := ["Set AUTH_COOKIE environment variable with " ++ name,
                    "Ensure cookie includes HttpOnly and Secure flags"] }
      | _ =>
        { auth_type := "unknown",
          config_snippet := "# Unable to determine configuration", notes := [] }
    | none =>
      { auth_type := "cookieAuthn",
        config_snippet := "# Cookie-based auth detected but no session found",
        notes := [] }
  else if strContains primary.method_type "JWT" ||
          strContains primary.method_type "Bearer" then
    { auth_type := "tokenAuthn",
      config_snippet :=
        "authentication:\n  type: tokenAuthn\n  tokenValue: \"Bearer $\x7bAUTH_TOKEN\x7d\"",
      notes := ["Extract token from login response",
                "Set AUTH_TOKEN environment variable"] ++
        (if !a.jwt_tokens.isEmpty then ["Token should be refreshed periodically"]
         else []) }
  else if strContains primary.method_type "OAuth" then
    { auth_type := "oauth2",
      config_snippet :=
        "authentication:\n  type: oauth2\n  oauth2:\n    tokenUrl: # Add your token endpoint\n    clientId: $\x7bOAUTH_CLIENT_ID\x7d\n    clientSecret: $\x7bOAUTH_CLIENT_SECRET\x7d",
      notes := ["Configure OAuth 2.0 client credentials",
                "HawkScan will obtain tokens automatically"] }
  else if strContains primary.method_type "API Key" then
    match a.sessions.find? (fun s =>
        match s.session_type with | .ApiKey _ => true | _ => false) with
    | some session =>
      match session.session_type with
      | .ApiKey headerName =>
        { auth_type := "customAuthn",
          config_snippet :=
            "authentication:\n  type: customAuthn\n  customAuthn:\n    headers:\n      " ++
            headerName ++ ": \"$\x7bAPI_KEY\x7d\"",
          notes := ["Set API_KEY environment variable"] }
      | _ =>
        { auth_type := "customAuthn",
          config_snippet := "# API key auth configuration", notes := [] }
    | none =>
      { auth_type := "customAuthn",
        config_snippet := "# API key auth configuration", notes := [] }
  else
    { auth_type := "unknown",
      config_snippet :=
        "# Authentication type could not be automatically determined\n# Please configure manually based on your application",
      notes := ["Manual configuration required", "Refer to HawkScan documentation"] }

/-- `AuthSummaryGenerator::generate_additional_info`. -/
def generate_additional_info (a : AuthAnalysis) : List String :=
  let loginCount := (a.events.filter (fun e => e.event_type == .LoginSuccess)).length
  let logoutCount := (a.events.filter (fun e => e.event_type == .Logout)).length
  (if loginCount > 0 then [toString loginCount ++ " login event(s) detected"] else []) ++
  (if logoutCount > 0 then [toString logoutCount ++ " logout event(s) detected"]
   else []) ++
  (if !a.advanced_security.refresh_patterns.isEmpty then
     ["Token refresh pattern detected (" ++
      toString ((a.advanced_security.refresh_patterns.map (·.refresh_count)).sum) ++
      " refresh operations)"]
   else [])

/-- `AuthSummaryGenerator::generate_summary`: `None` when nothing
authentication-related was detected (the CLI renders this as
"No authentication detected"). -/
def generate_summary (ep : String → String) (a : AuthAnalysis) :
    Option AuthenticationSummary :=
  if a.methods.isEmpty && a.sessions.isEmpty && a.flows.isEmpty &&
     a.jwt_tokens.isEmpty then none
  else
    let primary := determine_primary_method a
    some { primary_method := primary,
           session_mechanism := determine_session_mechanism a,
           key_endpoints := extract_key_endpoints ep a,
           hawkscan_config := generate_hawkscan_config primary a,
           additional_info := generate_additional_info a }

/-- `ExposureType::as_str`. -/
def exposure_type_as_str : ExposureType → String
  | .TokenInUrl => "Token in URL"
  | .TokenInQueryParam => "Token in query parameter"
  | .TokenInReferer => "Token in Referer header"
  | .CredentialsInUrl => "Credentials in URL"
  | .SensitiveDataInUrl => "Sensitive data in URL"

/-- `CorsIssueType::as_str`. -/
def cors_issue_type_as_str : CorsIssueType → String
  | .WildcardWithCredentials => "wildcard with credentials"
  | .OverlyPermissiveOrigin => "overly permissive origin"
  | .MissingCorsHeaders => "missing CORS headers"
  | .InsecureOrigin => "insecure origin"

/-- `CspFindingType::as_str`. -/
def csp_finding_type_as_str : CspFindingType → String
  | .MissingCsp => "missing CSP"
  | .UnsafeInline => "unsafe-inline"
  | .UnsafeEval => "unsafe-eval"
  | .WildcardSource => "wildcard source"
  | .WeakPolicy => "weak policy"

/-- `str::replace('_', " ")`. -/
def replaceUscore (s : String) : String :=
  ⟨s.data.map (fun c => if c == '_' then ' ' else c)⟩

/-- A modelled `HashMap<String, (usize, Vec<usize>)>` in canonical
insertion order. -/
abbrev FindMap := List (String × Nat × List Nat)

/-- `entry(key).and_modify(count += 1, push sample if < 3).or_insert`. -/
def upsertFinding (key : String) (idx : Option Nat) (m : FindMap) : FindMap :=
  if m.any (fun p => p.1 == key) then
    m.map (fun p =>
      if p.1 == key then
        (p.1, p.2.1 + 1,
         if p.2.2.length < 3 then
           match idx with
           | some i => p.2.2 ++ [i]
           | none => p.2.2
         else p.2.2)
      else p)
  else m ++ [(key, 1, (match idx with | some i => [i] | none => []))]

/-- `HashMap::insert` (replace or append). -/
def insertFinding (key : String) (v : Nat × List Nat) (m : FindMap) : FindMap :=
  if m.any (fun p => p.1 == key) then
    m.map (fun p => if p.1 == key then (p.1, v) else p)
  else m ++ [(key, v)]

/-- First segment of `key.split(" - ")` (the whole key when the
separator is absent). -/
def findingTypeOf (key : String) : String :=
  match findSub " - ".data key.data with
  | some i => ⟨key.data.take i⟩
  | none => key

def findingLt (a b : AggregatedFinding) : Bool := b.count < a.count

/-- `to_findings`: flush a map (canonical order; the real iteration
order is arbitrary) and stable-sort by count descending. -/
def toFindings (m : FindMap) : List AggregatedFinding :=
  sortByStable findingLt
    (m.map (fun p =>
      { finding_type := findingTypeOf p.1, message := p.1,
        count := p.2.1, sample_entries := p.2.2 }))

/-- The dedup key of a security note: `"{category} - {message}"`. -/
def noteKey (note : SecurityNote) : String := note.category ++ " - " ++ note.message

/-- One security note's contribution to the three severity maps. -/
def noteStep (st : FindMap × FindMap × FindMap) (note : SecurityNote) :
    FindMap × FindMap × FindMap :=
  match note.severity with
  | .Critical => (upsertFinding (noteKey note) note.entry_index st.1, st.2.1, st.2.2)
  | .Warning => (st.1, upsertFinding (noteKey note) note.entry_index st.2.1, st.2.2)
  | .Info => (st.1, st.2.1, upsertFinding (noteKey note) note.entry_index st.2.2)

/-- One token exposure's contribution to the three severity maps. -/
def expStep (st : FindMap × FindMap × FindMap) (exp : TokenExposure) :
    FindMap × FindMap × FindMap :=
  let key := "Token Exposure - " ++ exposure_type_as_str exp.exposure_type
  match exp.severity with
  | .Critical => (upsertFinding key (some exp.entry_index) st.1, st.2.1, st.2.2)
  | .Warning => (st.1, upsertFinding key (some exp.entry_index) st.2.1, st.2.2)
  | .Info => (st.1, st.2.1, upsertFinding key (some exp.entry_index) st.2.2)

/-- `AuthSummaryGenerator::aggregate_security_findings`: group by
`"{category} - {message}"` within each severity bucket, then the
advanced findings, then CORS (bucketed into warnings) and CSP (bucketed
into info). -/
def aggregate_security_findings (a : AuthAnalysis) : SecurityFindingsSummary :=
  let st0 : FindMap × FindMap × FindMap := ([], [], [])
  let st1 := a.security_notes.foldl noteStep st0
  let st2 := a.advanced_security.token_exposures.foldl expStep st1
  let corsMap := a.advanced_security.cors_issues.foldl
    (fun m issue =>
      upsertFinding (cors_issue_type_as_str issue.issue_type)
        (some issue.entry_index) m)
    ([] : FindMap)
  let warnings2 := corsMap.foldl
    (fun m p => insertFinding ("CORS " ++ replaceUscore p.1) p.2 m) st2.2.1
  let cspMap := a.advanced_security.csp_findings.foldl
    (fun m finding =>
      upsertFinding (csp_finding_type_as_str finding.finding_type)
        (some finding.entry_index) m)
    ([] : FindMap)
  let info2 := cspMap.foldl
    (fun m p => insertFinding ("CSP " ++ replaceUscore p.1) p.2 m) st2.2.2
  { critical := toFindings st2.1, warnings := toFindings warnings2,
    info := toFindings info2 }

/-! ## Byte-level model of Rust string slicing (claim C1)

Rust `&str` indexing is byte-based: `&s[..n]` panics unless `n` is 0,
the byte length, or the position of a non-continuation byte.
`SessionTracker::token_identifier` computes `&token[..16]` whenever the
token is longer than 16 bytes (`JwtAnalyzer::process_jwt_token` and
`truncate_token` slice the same way at 20 and 25), so the byte-level
behaviour is modelled here: `none` models a panic. -/

/-- A Rust string as its UTF-8 byte sequence. -/
abbrev ByteStr := List Nat

/-- Byte-prefix test. -/
def prefB : List Nat → List Nat → Bool
  | [], _ => true
  | _ :: _, [] => false
  | p :: ps, c :: cs => p == c && prefB ps cs

/-- UTF-8 bytes of an ASCII string literal. -/
def asciiBytes (s : String) : ByteStr := s.data.map Char.toNat

/-- Rust `str::is_char_boundary`: true at 0 and at the byte length, and
inside the string exactly at non-continuation bytes (`< 0x80` or
`>= 0xC0`). -/
def isCharBoundaryB (s : ByteStr) (i : Nat) : Bool :=
  if i == 0 then true
  else
    match s.get? i with
    | none => i == s.length
    | some b => b < 128 || 192 ≤ b

/-- `&s[..n]`: `some` prefix on a char boundary, `none` (panic)
otherwise. -/
def rustSlicePrefixB (s : ByteStr) (n : Nat) : Option ByteStr :=
  if isCharBoundaryB s n then some (s.take n) else none

/-- ASCII lowercasing on bytes (header-name comparison). -/
def lowerB (s : ByteStr) : ByteStr :=
  s.map (fun b => if 65 ≤ b && b ≤ 90 then b + 32 else b)

def isWsByte (b : Nat) : Bool := b == 32 || b == 9 || b == 10 || b == 13

/-- Rust `str::trim` (ASCII part) on bytes. -/
def trimB (s : ByteStr) : ByteStr :=
  ((s.dropWhile isWsByte).reverse.dropWhile isWsByte).reverse

/-- `SessionTracker::extract_bearer_token` on bytes. -/
def extract_bearer_token_b (v : ByteStr) : Option ByteStr :=
  if prefB (asciiBytes "Bearer ") v then some (trimB (v.drop 7)) else none

/-- `SessionTracker::token_identifier` on bytes: `&token[..16]` panics
(`none`) when byte 16 falls inside a multi-byte character. -/
def token_identifier_b (token : ByteStr) : Option ByteStr :=
  if token.length > 16 then
    (rustSlicePrefixB token 16).map (fun p => p ++ asciiBytes "...")
  else some token

/-- The bearer-token grouping keys computed by the first pass of
`SessionTracker::track_sessions` over one entry's request headers;
`none` models the panic aborting `analyze`. -/
def bearer_keys_b (headers : List (ByteStr × ByteStr)) : Option (List ByteStr) :=
  headers.foldl
    (fun acc h =>
      match acc with
      | none => none
      | some ks =>
        if lowerB h.1 == asciiBytes "authorization" then
          match extract_bearer_token_b h.2 with
          | some token => (token_identifier_b token).map (fun k => ks ++ [k])
          | none => some ks
        else some ks)
    (some [])

/-- The same pass over a whole transaction list (each transaction given
by its request headers). -/
def bearer_pass_b (entries : List (List (ByteStr × ByteStr))) : Option (List ByteStr) :=
  entries.foldl
    (fun acc hs =>
      match acc with
      | none => none
      | some ks => (bearer_keys_b hs).map (fun ks2 => ks ++ ks2))
    (some [])

/-! ## Spec-side definitions (claim C3)

`primarySignal` is written from the spec's words in §6: "pick, in
priority order, the first available signal among any OAuth2 flow (High),
SAML flow (High), any JWT token present (High), first session's type
(High), form-based flow (Medium), JSON-API flow (Medium), Basic method
present (High), any method present but unclassifiable (Low), none (Low,
no authentication detected)". -/

inductive PrimarySignal where
  | oauth2Flow
  | samlFlow
  | jwtToken
  | firstSession
  | formBasedFlow
  | jsonApiFlow
  | basicMethod
  | unclassifiedMethod
  | noneDetected
deriving DecidableEq, Repr

/-- The spec's priority selection, with the confidence the spec pairs
with each signal. -/
def primarySignal (a : AuthAnalysis) : PrimarySignal × ConfidenceLevel :=
  if a.flows.any (fun f => isOauthFlowType f.flow_type) then (.oauth2Flow, .High)
  else if !a.saml_flows.isEmpty then (.samlFlow, .High)
  else if !a.jwt_tokens.isEmpty then (.jwtToken, .High)
  else if !a.sessions.isEmpty then (.firstSession, .High)
  else if a.flows.any (fun f => f.flow_type == AuthFlowType.FormBased) then
    (.formBasedFlow, .Medium)
  else if a.flows.any (fun f => f.flow_type == AuthFlowType.JsonApi) then
    (.jsonApiFlow, .Medium)
  else if a.methods.any (fun m => m == AuthMethod.Basic) then (.basicMethod, .High)
  else if !a.methods.isEmpty then (.unclassifiedMethod, .Low)
  else (.noneDetected, .Low)

/-- Rendering of each spec-side signal into the concrete summary record
the code produces for it (used to state that the code's selection
follows the spec's priority order exactly). -/
def renderSignal (a : AuthAnalysis) : PrimarySignal → AuthMethodSummary
  | .oauth2Flow =>
    let oauthFlow := (a.flows.find? (fun f => isOauthFlowType f.flow_type)).getD
      { flow_type := .Unknown, start_time := "", end_time := none, steps := [] }
    let pkce := oauthFlow.flow_type == AuthFlowType.OAuth2AuthorizationCode true
    { method_type :=
        if pkce then "OAuth 2.0 Authorization Code with PKCE"
        else flow_type_as_str oauthFlow.flow_type,
      description := "OAuth 2.0 flow detected with token-based authentication",
      confidence := .High }
  | .samlFlow =>
    { method_type := "SAML SSO",
      description := toString a.saml_flows.length ++ " SAML flow(s) detected",
      confidence := .High }
  | .jwtToken =>
    { method_type := "JWT Bearer Token",
      description := "JWT tokens in Authorization header (algorithm: " ++
        (match a.jwt_tokens.head? with
         | some t => t.header.alg.getD "unknown"
         | none => "unknown") ++ ")",
      confidence := .High }
  | .firstSession =>
    match a.sessions.head? with
    | some session =>
      match session.session_type with
      | .Cookie name =>
        { method_type := "Cookie-Based Session",
          description := "Session cookie: " ++ name, confidence := .High }
      | .BearerToken isJwt =>
        { method_type := if isJwt then "JWT Bearer Token" else "Bearer Token",
          description := "Token-based authentication in Authorization header",
          confidence := .High }
      | .ApiKey headerName =>
        { method_type := "API Key",
          description := "API key in " ++ headerName ++ " header",
          confidence := .High }
    | none =>
      { method_type := "None Detected",
        description := "No clear authentication mechanism found in HAR file",
        confidence := .Low }
  | .formBasedFlow =>
    { method_type := "Form-Based Login",
      description := "Traditional form-based authentication flow detected",
      confidence := .Medium }
  | .jsonApiFlow =>
    { method_type := "JSON API Authentication",
      description := "JSON-based authentication endpoint detected",
      confidence := .Medium }
  | .basicMethod =>
    { method_type := "HTTP Basic Authentication",
      description := "Username and password in Authorization header",
      confidence := .High }
  | .unclassifiedMethod =>
    { method_type := "Unknown Authentication",
      description := toString a.methods.length ++
        " authentication method(s) detected but type unclear",
      confidence := .Low }
  | .noneDetected =>
    { method_type := "None Detected",
      description := "No clear authentication mechanism found in HAR file",
      confidence := .Low }

/-! ## Concrete fixtures used by the claim theorems -/

/-- C1 failing token: `"a"` followed by eight two-byte `U+03B1` (GREEK
SMALL LETTER ALPHA, bytes `0xCE 0xB1`): 17 bytes, and byte 16 is the
continuation byte of the final character. -/
def c1TokenB : ByteStr :=
  asciiBytes "a" ++ (List.replicate 8 ([206, 177] : List Nat)).flatten

/-- C1 failing header value: `Bearer ` followed by the token above. -/
def c1ValueB : ByteStr := asciiBytes "Bearer " ++ c1TokenB

/-- C2 input: one transaction with two auth-looking request cookies, so
the cookie-session map holds two keys with equal first-seen timestamps. -/
def c2Har : Har :=
  [{ started_date_time := "2024-01-01T00:00:00Z",
     request := { method := "GET", url := "https://app.example.com/",
                  cookies := [{ name := "auth1", value := "v1" },
                              { name := "auth2", value := "v2" }] },
     response := { status := 200, content := { mime_type := "text/html" } } }]

/-- One possible `track_sessions` result on `c2Har` (canonical map
iteration order). -/
def c2RunA : List AuthSession := track_sessions c2Har

/-- Another possible `track_sessions` result on `c2Har` (the cookie map
iterated in the reverse order). -/
def c2RunB : List AuthSession :=
  sortByStable sessionLt
    (((groupPairs (cookiePairs c2Har)).reverse).filterMap
       (fun p => build_cookie_session p.1 p.2) ++
     (groupPairs (bearerPairs c2Har)).filterMap
       (fun p => build_bearer_session p.1 p.2) ++
     (groupPairs (apiKeyPairs c2Har)).filterMap
       (fun p => build_apikey_session p.2))

/-- Trivial JWT header parser (no segment parses), closing the external
base64/serde parameters for concrete runs. -/
def noJh : String → Option JwtHeader := fun _ => none

/-- Trivial JWT claims parser, closing the external parameters for
concrete runs. -/
def noJc : String → Option JwtClaims := fun _ => none

/-- One possible full `analyze` output on `c2Har` (every hash container
iterated in canonical order). -/
def c2AnalysisA : AuthAnalysis :=
  { methods := detect c2Har,
    sessions := c2RunA,
    flows := detect_flows c2Har,
    events := detect_events c2Har,
    security_notes := security_analyze c2Har (detect c2Har) c2RunA,
    jwt_tokens := (jwt_analyze noJh noJc c2Har).1,
    jwt_issues := (jwt_analyze noJh noJc c2Har).2,
    saml_flows := (saml_detect_flows c2Har).1,
    saml_issues := (saml_detect_flows c2Har).2,
    advanced_security := advanced_analyze c2Har }

/-- Another possible full `analyze` output on `c2Har` (the cookie
session map iterated in the reverse order). -/
def c2AnalysisB : AuthAnalysis :=
  { methods := detect c2Har,
    sessions := c2RunB,
    flows := detect_flows c2Har,
    events := detect_events c2Har,
    security_notes := security_analyze c2Har (detect c2Har) c2RunB,
    jwt_tokens := (jwt_analyze noJh noJc c2Har).1,
    jwt_issues := (jwt_analyze noJh noJc c2Har).2,
    saml_flows := (saml_detect_flows c2Har).1,
    saml_issues := (saml_detect_flows c2Har).2,
    advanced_security := advanced_analyze c2Har }

/-- C3 witness input: an analysis holding one SAML flow and no OAuth2
flow. -/
def c3SamlAnalysis : AuthAnalysis :=
  { methods := [], sessions := [], flows := [], events := [], security_notes := [],
    jwt_tokens := [], jwt_issues := [],
    saml_flows := [{ flow_type := .IdpInitiated, start_time := "2024-01-01T00:00:00Z",
                     end_time := none, steps := [], idp_entity_id := none,
                     sp_entity_id := none }],
    saml_issues := [],
    advanced_security := { token_exposures := [], cors_issues := [],
                           csp_findings := [], refresh_patterns := [] } }

/-- C4 input: one Client Credentials token request with no subsequent
Bearer-authenticated request. -/
def c4Har : Har :=
  [{ started_date_time := "2024-01-01T00:00:00Z",
     request := { method := "POST", url := "https://auth.example.com/token",
                  post_data := some { mime_type := "application/x-www-form-urlencoded",
                                      text := some "grant_type=client_credentials&client_id=x" } },
     response := { status := 200, content := { mime_type := "application/json" } } }]

/-- The single-step flow `detect_flows` records on `c4Har`. -/
def c4Flow : AuthFlow :=
  { flow_type := .OAuth2ClientCredentials,
    start_time := "2024-01-01T00:00:00Z",
    end_time := some "2024-01-01T00:00:00Z",
    steps := [{ entry_index := 0, timestamp := "2024-01-01T00:00:00Z",
                role := .TokenExchange, method := "POST",
                url := "https://auth.example.com/token", status := 200,
                description := "Client credentials token request" }] }

def mkGetEntry (url : String) : Entry :=
  { started_date_time := "2024-01-01T00:00:00Z",
    request := { method := "GET", url := url },
    response := { status := 200, content := { mime_type := "text/html" } } }

/-- C5 input: a SAML AuthnRequest anchor whose SAML response (entry 1)
precedes the IdP interaction (entry 2) in the recording. -/
def c5Har : Har :=
  [mkGetEntry "https://sp.example.com/saml/sso",
   mkGetEntry "https://sp.example.com/finish?SAMLResponse=abc",
   mkGetEntry "https://idp.example.com/idp/login"]

/-- C6 counterexample input: a Bearer token with three non-empty
dot-separated segments whose first segment holds a character outside
`[A-Za-z0-9-_]`. -/
def c6Har : Har :=
  [{ started_date_time := "2024-01-01T00:00:00Z",
     request := { method := "GET", url := "https://api.example.com/data",
                  headers := [{ name := "Authorization", value := "Bearer a!.b.c" }] },
     response := { status := 200, content := { mime_type := "application/json" } } }]

/-- C6 witness header: a well-formed three-segment Bearer token. -/
def c6WitnessHeader : Header := { name := "Authorization", value := "Bearer abc.def.ghi" }

def c6WitnessEntry : Entry :=
  { started_date_time := "2024-01-01T00:00:00Z",
    request := { method := "GET", url := "https://api.example.com/data",
                 headers := [c6WitnessHeader] },
    response := { status := 200, content := { mime_type := "application/json" } } }

def c6WitnessHar : Har := [c6WitnessEntry]

/-- C7 cookie-session attributes: HttpOnly unknown (missing), SameSite
absent by construction. -/
def c7attrs : SessionAttributes :=
  { http_only := none, secure := some true, same_site := none,
    expires := none, path := none, domain := none }

def c7Session (name : String) (i : Nat) : AuthSession :=
  { session_type := .Cookie name, identifier := name ++ "=v",
    first_seen := "2024-01-01T00:00:00Z", last_seen := "2024-01-01T00:00:00Z",
    request_count := 1, entry_indices := [i], attributes := some c7attrs }

def c7Sessions (n1 n2 n3 n4 n5 : String) : List AuthSession :=
  [c7Session n1 0, c7Session n2 1, c7Session n3 2, c7Session n4 3, c7Session n5 4]

/-- C7 input: an analysis whose security notes come from five distinct
cookie sessions, each missing HttpOnly. -/
def c7Analysis (n1 n2 n3 n4 n5 : String) : AuthAnalysis :=
  { methods := [], sessions := c7Sessions n1 n2 n3 n4 n5, flows := [], events := [],
    security_notes := analyze_sessions (c7Sessions n1 n2 n3 n4 n5) [],
    jwt_tokens := [], jwt_issues := [], saml_flows := [], saml_issues := [],
    advanced_security := { token_exposures := [], cors_issues := [],
                           csp_findings := [], refresh_patterns := [] } }

/-- The missing-HttpOnly warning note a cookie session named `n` with
first entry index `i` produces. -/
def c7warnNote (n : String) (i : Nat) : SecurityNote :=
  { severity := .Warning, category := "Cookie Security",
    message := "Cookie \x27" ++ n ++ "\x27 missing HttpOnly flag (vulnerable to XSS)",
    entry_index := some i }

/-- The aggregation key of the missing-HttpOnly warning for cookie `n`. -/
def keyW (n : String) : String :=
  "Cookie Security" ++ " - " ++
    ("Cookie \x27" ++ n ++ "\x27 missing HttpOnly flag (vulnerable to XSS)")

/-- Keys of the Warning-severity notes, in order. -/
def warnKeys (notes : List SecurityNote) : List String :=
  (notes.filter (fun n => n.severity == Severity.Warning)).map noteKey

/-- C9 witness input: one transaction carrying one auth cookie. -/
def c9Har : Har :=
  [{ started_date_time := "2024-01-01T00:00:00Z",
     request := { method := "GET", url := "https://app.example.com/",
                  cookies := [{ name := "sessionid", value := "xyz" }] },
     response := { status := 200, content := { mime_type := "text/html" } } }]

/-- The session `track_sessions` produces on `c9Har`. -/
def c9Session : AuthSession :=
  { session_type := .Cookie "sessionid", identifier := "sessionid=xyz",
    first_seen := "2024-01-01T00:00:00Z", last_seen := "2024-01-01T00:00:00Z",
    request_count := 1, entry_indices := [0],
    attributes := some { http_only := none, secure := none, same_site := none,
                         expires := none, path := none, domain := none } }

/-- C10 witness header: a `Cookie` header whose only auth-marker
substring (`token`) occurs inside a cookie value, not a cookie name. -/
def c10Header : Header := { name := "Cookie", value := "foo=bar; something=mytokenvalue" }

def c10Entry : Entry :=
  { started_date_time := "2024-01-01T00:00:00Z",
    request := { method := "GET", url := "https://app.example.com/",
                 headers := [c10Header] },
    response := { status := 200, content := { mime_type := "text/html" } } }

def c10Har : Har := [c10Entry]

/-! ## General lemmas -/

theorem sInsert_perm (lt : α → α → Bool) (x : α) : ∀ l, List.Perm (sInsert lt x l) (x :: l)
  | [] => List.Perm.refl _
  | y :: ys => by
    unfold sInsert
    split
    · exact List.Perm.refl _
    · exact ((sInsert_perm lt x ys).cons y).trans (List.Perm.swap x y ys)

theorem sortLoop_perm (lt : α → α → Bool) :
    ∀ (l acc : List α),
      List.Perm (l.foldl (fun acc x => sInsert lt x acc) acc) (acc ++ l)
  | [], acc => by simp
  | x :: xs, acc => by
    simp only [List.foldl_cons]
    refine (sortLoop_perm lt xs (sInsert lt x acc)).trans ?_
    refine ((sInsert_perm lt x acc).append_right xs).trans ?_
    exact List.perm_middle.symm

theorem sortByStable_perm (lt : α → α → Bool) (l : List α) :
    List.Perm (sortByStable lt l) l := by
  simpa [sortByStable] using sortLoop_perm lt l []

theorem mem_sortByStable {lt : α → α → Bool} {l : List α} {a : α} :
    a ∈ sortByStable lt l ↔ a ∈ l :=
  (sortByStable_perm lt l).mem_iff

theorem pairwise_of_forall_mem {R : α → α → Prop} :
    ∀ {l : List α}, (∀ x ∈ l, ∀ y ∈ l, R x y) → l.Pairwise R
  | [], _ => List.Pairwise.nil
  | x :: xs, h => by
    refine List.Pairwise.cons (fun y hy => h x (by simp) y (by simp [hy])) ?_
    exact pairwise_of_forall_mem (fun a ha b hb =>
      h a (by simp [ha]) b (by simp [hb]))

theorem enumL_mem_le : ∀ {m : Nat} {l : List α} {q : Nat × α}, q ∈ enumL m l → m ≤ q.1 := by
  intro m l
  induction l generalizing m with
  | nil => intro q h; simp [enumL] at h
  | cons x xs ih =>
    intro q h
    simp only [enumL, List.mem_cons] at h
    rcases h with rfl | h
    · exact Nat.le_refl _
    · exact Nat.le_of_succ_le (ih h)

theorem enumL_pairwise : ∀ (m : Nat) (l : List α),
    List.Pairwise (fun a b => a.1 < b.1) (enumL m l)
  | _, [] => List.Pairwise.nil
  | m, x :: xs => by
    refine List.Pairwise.cons ?_ (enumL_pairwise (m + 1) xs)
    intro q hq
    exact Nat.lt_of_lt_of_le (Nat.lt_succ_self m) (enumL_mem_le hq)

theorem enumL_get : ∀ {m : Nat} {l : List α} {q : Nat × α},
    q ∈ enumL m l → l.get? (q.1 - m) = some q.2 := by
  intro m l
  induction l generalizing m with
  | nil => intro q h; simp [enumL] at h
  | cons x xs ih =>
    intro q h
    simp only [enumL, List.mem_cons] at h
    rcases h with rfl | h
    · simp
    · have h1 := enumL_mem_le h
      have h2 := ih h
      have h3 : q.1 - m = (q.1 - (m + 1)) + 1 := by omega
      rw [h3]
      simpa using h2

theorem harPairs_props {γ : Type} (har : Har)
    (h : Nat → Entry → List (String × (Nat × Entry × γ)))
    (hh : ∀ i e q, q ∈ h i e → q.2.1 = i ∧ q.2.2.1 = e) :
    List.Pairwise (fun a b => a.2.1 ≤ b.2.1)
      ((enumL 0 har).flatMap (fun p => h p.1 p.2)) ∧
    ∀ q ∈ (enumL 0 har).flatMap (fun p => h p.1 p.2),
      har.get? q.2.1 = some q.2.2.1 := by
  constructor
  · rw [List.pairwise_flatMap]
    constructor
    · intro p _
      refine pairwise_of_forall_mem (fun x hx y hy => ?_)
      rw [(hh p.1 p.2 x hx).1, (hh p.1 p.2 y hy).1]
    · refine (enumL_pairwise 0 har).imp ?_
      intro a b hlt x hx y hy
      rw [(hh a.1 a.2 x hx).1, (hh b.1 b.2 y hy).1]
      exact Nat.le_of_lt hlt
  · intro q hq
    obtain ⟨p, hp, hq2⟩ := List.mem_flatMap.mp hq
    obtain ⟨h1, h2⟩ := hh p.1 p.2 q hq2
    rw [h1, h2]
    simpa using enumL_get hp

theorem mem_dedupAcc : ∀ {l : List String} {seen : List String} {k : String},
    k ∈ dedupAcc seen l → k ∈ l := by
  intro l
  induction l with
  | nil => intro seen k h; simp [dedupAcc] at h
  | cons x xs ih =>
    intro seen k h
    simp only [dedupAcc] at h
    split at h
    · exact List.mem_cons_of_mem _ (ih h)
    · rcases List.mem_cons.mp h with rfl | h
      · exact List.mem_cons_self _ _
      · exact List.mem_cons_of_mem _ (ih h)

theorem groupPairs_mem {β : Type} {l : List (String × β)} {k : String} {vs : List β}
    (h : (k, vs) ∈ groupPairs l) :
    vs = (l.filter (fun p => p.1 == k)).map Prod.snd ∧ vs ≠ [] := by
  obtain ⟨k', hk', heq⟩ := List.mem_map.mp h
  obtain ⟨rfl, rfl⟩ : k' = k ∧ (l.filter (fun p => p.1 == k')).map Prod.snd = vs := by
    constructor
    · exact congrArg Prod.fst heq
    · exact congrArg Prod.snd heq
  refine ⟨rfl, ?_⟩
  have hk2 : k' ∈ l.map Prod.fst := mem_dedupAcc hk'
  obtain ⟨p, hp, hpk⟩ := List.mem_map.mp hk2
  have hpf : p ∈ l.filter (fun p => p.1 == k') := by
    rw [List.mem_filter]
    exact ⟨hp, by simp [hpk]⟩
  intro hnil
  rw [List.map_eq_nil_iff] at hnil
  rw [hnil] at hpf
  exact absurd hpf (List.not_mem_nil p)

theorem cookiePairs_hh : ∀ (i : Nat) (e : Entry)
    (q : String × (Nat × Entry × Cookie)),
    q ∈ (e.request.cookies.filter (fun c => is_auth_cookie_s c.name)).map
      (fun c => (c.name, (i, e, c))) → q.2.1 = i ∧ q.2.2.1 = e := by
  intro i e q hq
  obtain ⟨c, _, rfl⟩ := List.mem_map.mp hq
  exact ⟨rfl, rfl⟩

theorem cookiePairs_pairwise (har : Har) :
    List.Pairwise (fun a b => a.2.1 ≤ b.2.1) (cookiePairs har) :=
  (harPairs_props har _ cookiePairs_hh).1

theorem cookiePairs_get (har : Har) :
    ∀ q ∈ cookiePairs har, har.get? q.2.1 = some q.2.2.1 :=
  (harPairs_props har _ cookiePairs_hh).2

theorem bearerPairs_hh : ∀ (i : Nat) (e : Entry)
    (q : String × (Nat × Entry × String)),
    q ∈ e.request.headers.filterMap (fun h =>
      if strLower h.name == "authorization" then
        (extract_bearer_token h.value).map (fun token =>
          (token_identifier token, (i, e, token)))
      else none) → q.2.1 = i ∧ q.2.2.1 = e := by
  intro i e q hq
  obtain ⟨h, _, heq⟩ := List.mem_filterMap.mp hq
  split at heq
  · cases hbt : extract_bearer_token h.value with
    | none => rw [hbt] at heq; simp at heq
    | some token =>
      rw [hbt] at heq
      simp at heq
      rw [← heq]
      exact ⟨rfl, rfl⟩
  · simp at heq

theorem bearerPairs_pairwise (har : Har) :
    List.Pairwise (fun a b => a.2.1 ≤ b.2.1) (bearerPairs har) :=
  (harPairs_props har _ bearerPairs_hh).1

theorem bearerPairs_get (har : Har) :
    ∀ q ∈ bearerPairs har, har.get? q.2.1 = some q.2.2.1 :=
  (harPairs_props har _ bearerPairs_hh).2

theorem apiKeyPairs_hh : ∀ (i : Nat) (e : Entry)
    (q : String × (Nat × Entry × String)),
    q ∈ e.request.headers.filterMap (fun h =>
      if is_api_key_header h.name then
        some (h.name ++ ":" ++ truncate_value h.value, (i, e, h.name))
      else none) → q.2.1 = i ∧ q.2.2.1 = e := by
  intro i e q hq
  obtain ⟨h, _, heq⟩ := List.mem_filterMap.mp hq
  split at heq
  · simp at heq
    rw [← heq]
    exact ⟨rfl, rfl⟩
  · simp at heq

theorem apiKeyPairs_pairwise (har : Har) :
    List.Pairwise (fun a b => a.2.1 ≤ b.2.1) (apiKeyPairs har) :=
  (harPairs_props har _ apiKeyPairs_hh).1

theorem apiKeyPairs_get (har : Har) :
    ∀ q ∈ apiKeyPairs har, har.get? q.2.1 = some q.2.2.1 :=
  (harPairs_props har _ apiKeyPairs_hh).2

theorem group_values_props {γ : Type} {pairs : List (String × (Nat × Entry × γ))}
    {har : Har} {k : String} {vs : List (Nat × Entry × γ)}
    (hpw : List.Pairwise (fun a b => a.2.1 ≤ b.2.1) pairs)
    (hget : ∀ q ∈ pairs, har.get? q.2.1 = some q.2.2.1)
    (hmem : (k, vs) ∈ groupPairs pairs) :
    List.Pairwise (fun (a b : Nat × Entry × γ) => a.1 ≤ b.1) vs ∧
    (∀ q ∈ vs, har.get? q.1 = some q.2.1) ∧ vs ≠ [] := by
  obtain ⟨hvs, hne⟩ := groupPairs_mem hmem
  subst hvs
  refine ⟨?_, ?_, hne⟩
  · rw [List.pairwise_map]
    exact hpw.filter _
  · intro q hq
    obtain ⟨p, hp, rfl⟩ := List.mem_map.mp hq
    exact hget p (List.mem_of_mem_filter hp)

theorem session_core {γ : Type} {har : Har} (f : Nat × Entry × γ)
    (rest : List (Nat × Entry × γ))
    (hpw : List.Pairwise (fun (a b : Nat × Entry × γ) => a.1 ≤ b.1) (f :: rest))
    (hget : ∀ q ∈ (f :: rest), har.get? q.1 = some q.2.1) :
    List.Pairwise (· ≤ ·) ((f :: rest).map (·.1)) ∧
    (f :: rest).length = ((f :: rest).map (·.1)).length ∧
    ((f :: rest).map (·.1)) ≠ [] ∧
    (∀ i, ((f :: rest).map (·.1)).head? = some i →
       ∃ e, har.get? i = some e ∧
         e.started_date_time = f.2.1.started_date_time) ∧
    (∀ i, ((f :: rest).map (·.1)).getLast? = some i →
       ∃ e, har.get? i = some e ∧
         e.started_date_time =
           ((f :: rest).getLast (List.cons_ne_nil f rest)).2.1.started_date_time) := by
  refine ⟨?_, by simp, by simp, ?_, ?_⟩
  · rw [List.pairwise_map]
    exact hpw
  · intro i hi
    simp only [List.map_cons, List.head?_cons, Option.some.injEq] at hi
    subst hi
    exact ⟨f.2.1, hget f (by simp), rfl⟩
  · intro i hi
    rw [List.getLast?_map,
        List.getLast?_eq_getLast (f :: rest) (List.cons_ne_nil f rest)] at hi
    simp only [Option.map_some', Option.some.injEq] at hi
    subst hi
    exact ⟨((f :: rest).getLast (List.cons_ne_nil f rest)).2.1,
           hget _ (List.getLast_mem _), rfl⟩

theorem ac_min_steps {har : Har} {f : AuthFlow}
    (hf : f ∈ (enumL 0 har).filterMap (fun p => acFlowAt har p.1 p.2)) :
    2 ≤ f.steps.length := by
  obtain ⟨p, _, heq⟩ := List.mem_filterMap.mp hf
  simp only [acFlowAt] at heq
  split at heq
  · split at heq
    · rename_i hlen
      cases heq
      simp only [List.length_cons] at hlen ⊢
      omega
    · exact absurd heq (by simp)
  · exact absurd heq (by simp)

theorem cc_type {har : Har} {f : AuthFlow}
    (hf : f ∈ (enumL 0 har).filterMap (fun p => ccFlowAt har p.1 p.2)) :
    f.flow_type = AuthFlowType.OAuth2ClientCredentials := by
  obtain ⟨p, _, heq⟩ := List.mem_filterMap.mp hf
  simp only [ccFlowAt] at heq
  split at heq
  · cases heq; rfl
  · exact absurd heq (by simp)

theorem implicit_type {har : Har} {f : AuthFlow}
    (hf : f ∈ (enumL 0 har).filterMap (fun p => implicitFlowAt p.1 p.2)) :
    f.flow_type = AuthFlowType.OAuth2Implicit := by
  obtain ⟨p, _, heq⟩ := List.mem_filterMap.mp hf
  simp only [implicitFlowAt] at heq
  split at heq
  · cases heq; rfl
  · exact absurd heq (by simp)

theorem form_min_steps {har : Har} {f : AuthFlow}
    (hf : f ∈ (enumL 0 har).filterMap (fun p => formFlowAt har p.1 p.2)) :
    2 ≤ f.steps.length := by
  obtain ⟨p, _, heq⟩ := List.mem_filterMap.mp hf
  simp only [formFlowAt] at heq
  split at heq
  · split at heq
    · rename_i hlen
      cases heq
      simp only [List.length_cons] at hlen ⊢
      omega
    · exact absurd heq (by simp)
  · exact absurd heq (by simp)

theorem json_min_steps {har : Har} {f : AuthFlow}
    (hf : f ∈ (enumL 0 har).filterMap (fun p => jsonFlowAt har p.1 p.2)) :
    2 ≤ f.steps.length := by
  obtain ⟨p, _, heq⟩ := List.mem_filterMap.mp hf
  simp only [jsonFlowAt] at heq
  split at heq
  · split at heq
    · rename_i hlen
      cases heq
      simp only [List.length_cons] at hlen ⊢
      omega
    · exact absurd heq (by simp)
  · exact absurd heq (by simp)

theorem sp_min_steps {har : Har} {f : SamlFlow}
    (hf : f ∈ ((enumL 0 har).map (fun p =>
        if is_saml_authn_request p.2 then build_sp_initiated_flow har p.1 p.2
        else (none, []))).filterMap (·.1)) :
    2 ≤ f.steps.length := by
  obtain ⟨pr, hpr, heq⟩ := List.mem_filterMap.mp hf
  obtain ⟨p, _, hpr2⟩ := List.mem_map.mp hpr
  by_cases hc : is_saml_authn_request p.2
  · rw [if_pos hc] at hpr2
    subst hpr2
    simp only [build_sp_initiated_flow] at heq
    split at heq
    · rename_i hlen
      cases heq
      simp only [List.length_cons, List.length_append] at hlen ⊢
      omega
    · exact absurd heq (by simp)
  · rw [if_neg hc] at hpr2
    subst hpr2
    exact absurd heq (by simp)

theorem idp_type {har : Har} {f : SamlFlow} {spFlows : List SamlFlow}
    (hf : f ∈ (enumL 0 har).filterMap (fun p =>
        if is_saml_response p.2 && !is_part_of_sp_flow spFlows p.1 then
          build_idp_initiated_flow har p.1 p.2
        else none)) :
    f.flow_type = SamlFlowType.IdpInitiated := by
  obtain ⟨p, _, heq⟩ := List.mem_filterMap.mp hf
  split at heq
  · simp only [build_idp_initiated_flow] at heq
    cases heq; rfl
  · exact absurd heq (by simp)

theorem logout_type {har : Har} {f : SamlFlow}
    (hf : f ∈ (enumL 0 har).filterMap (fun p =>
        if is_saml_logout_request p.2 then build_logout_flow har p.1 p.2 else none)) :
    f.flow_type = SamlFlowType.Logout := by
  obtain ⟨p, _, heq⟩ := List.mem_filterMap.mp hf
  split at heq
  · simp only [build_logout_flow] at heq
    cases heq; rfl
  · exact absurd heq (by simp)

theorem mem_insertAbsent_self (l : List AuthMethod) (m : AuthMethod) :
    m ∈ insertAbsent l m := by
  rw [insertAbsent]
  split
  · assumption
  · simp

theorem mem_insertAbsent_of_mem {l : List AuthMethod} {x : AuthMethod}
    (m : AuthMethod) (h : x ∈ l) : x ∈ insertAbsent l m := by
  rw [insertAbsent]
  split
  · exact h
  · exact List.mem_append_left _ h

theorem headerStep_preserves {x : AuthMethod} {acc : List AuthMethod} (h : Header)
    (hx : x ∈ acc) : x ∈ headerStep acc h := by
  rw [headerStep]
  repeat' split
  all_goals first
    | exact hx
    | exact mem_insertAbsent_of_mem _ hx

theorem cookieStep_preserves {x : AuthMethod} {acc : List AuthMethod} (c : Cookie)
    (hx : x ∈ acc) : x ∈ cookieStep acc c := by
  rw [cookieStep]
  split
  · exact mem_insertAbsent_of_mem _ hx
  · exact hx

theorem foldl_pres {α : Type} {x : AuthMethod}
    {f : List AuthMethod → α → List AuthMethod}
    (hf : ∀ (acc : List AuthMethod) (b : α), x ∈ acc → x ∈ f acc b) :
    ∀ (l : List α) (acc : List AuthMethod), x ∈ acc → x ∈ l.foldl f acc := by
  intro l
  induction l with
  | nil => intro acc h; exact h
  | cons b bs ih => intro acc h; exact ih _ (hf acc b h)

theorem detectEntry_preserves {x : AuthMethod} {acc : List AuthMethod} (e : Entry)
    (hx : x ∈ acc) : x ∈ detectEntry acc e := by
  rw [detectEntry]
  exact foldl_pres (fun acc c h => cookieStep_preserves c h) _ _
    (foldl_pres (fun acc hd h => headerStep_preserves hd h) _ _ hx)

theorem detect_of_header {har : Har} {e : Entry} {hd : Header} {m : AuthMethod}
    (he : e ∈ har) (hh : hd ∈ e.request.headers)
    (hm : ∀ acc, m ∈ headerStep acc hd) : m ∈ detect har := by
  obtain ⟨l1, l2, rfl⟩ := List.append_of_mem he
  rw [detect, List.foldl_append, List.foldl_cons]
  refine foldl_pres (fun acc b h => detectEntry_preserves b h) l2 _ ?_
  rw [detectEntry]
  refine foldl_pres (fun acc c h => cookieStep_preserves c h) _ _ ?_
  obtain ⟨h1, h2, hsplit⟩ := List.append_of_mem hh
  rw [hsplit, List.foldl_append, List.foldl_cons]
  exact foldl_pres (fun acc hd' h => headerStep_preserves hd' h) h2 _ (hm _)

theorem headerStep_authorization {hd : Header} {m : AuthMethod}
    (hname : strLower hd.name = "authorization")
    (hsig : authSignal hd.value = some m) (acc : List AuthMethod) :
    m ∈ headerStep acc hd := by
  simp [headerStep, hname, hsig, mem_insertAbsent_self]

theorem headerStep_cookie_arm {hd : Header}
    (hname : strLower hd.name = "cookie")
    (hac : has_auth_cookie hd.value = true) (acc : List AuthMethod) :
    AuthMethod.Cookie ∈ headerStep acc hd := by
  simp [headerStep, hname, hac, mem_insertAbsent_self]

theorem prefOf_append_self : ∀ (p t : List Char), prefOf p (p ++ t) = true
  | [], _ => rfl
  | c :: cs, t => by simp [prefOf, prefOf_append_self cs t]

theorem trimAux_of_not {l : List Char} (h : prefOf "Bearer ".data l = false) :
    ∀ fuel, trimBearerAux fuel l = l := by
  intro fuel
  cases fuel <;> simp [trimBearerAux, h]

theorem trimBearer_bearer_append (t : String) (h : strStarts t "Bearer " = false) :
    trimBearer ("Bearer " ++ t) = t := by
  have hb : "Bearer ".data = ['B', 'e', 'a', 'r', 'e', 'r', ' '] := rfl
  show String.mk (trimBearerList (("Bearer " ++ t).data)) = t
  rw [String.data_append, trimBearerList]
  have hlen : ("Bearer ".data ++ t.data).length = t.data.length + 7 := by
    rw [hb]
    simp [List.length_append]
  rw [hlen]
  have h1 : trimBearerAux (t.data.length + 7) ("Bearer ".data ++ t.data) =
      trimBearerAux (t.data.length + 6) (("Bearer ".data ++ t.data).drop 7) := by
    show trimBearerAux ((t.data.length + 6) + 1) _ = _
    simp only [trimBearerAux, prefOf_append_self, if_true]
  rw [h1]
  have h2 : ("Bearer ".data ++ t.data).drop 7 = t.data := by
    rw [hb]
    rfl
  rw [h2, trimAux_of_not h]

theorem strStarts_bearer_not_basic (t : String) :
    strStarts ("Bearer " ++ t) "Basic " = false := by
  rw [strStarts, String.data_append]
  rfl

theorem strStarts_bearer_self (t : String) :
    strStarts ("Bearer " ++ t) "Bearer " = true := by
  rw [strStarts, String.data_append]
  exact prefOf_append_self _ _

theorem authSignal_bearer (t : String) (h : strStarts t "Bearer " = false) :
    authSignal ("Bearer " ++ t) =
      (if jwtPatternMatch t then some AuthMethod.Jwt else some AuthMethod.Bearer) := by
  rw [authSignal]
  rw [strStarts_bearer_not_basic, strStarts_bearer_self]
  simp [trimBearer_bearer_append t h]

theorem splitDot_no_dot : ∀ {l : List Char}, '.' ∉ l → splitDot l = [l] := by
  intro l
  induction l with
  | nil => intro _; rfl
  | cons c cs ih =>
    intro h
    have hc : (c == '.') = false := by
      simp only [List.mem_cons, not_or] at h
      exact beq_eq_false_iff_ne.mpr (Ne.symm h.1)
    have hcs := ih (fun hm => h (List.mem_cons_of_mem c hm))
    simp only [splitDot, List.foldr_cons] at hcs ⊢
    rw [hcs, hc]
    simp

theorem jwtPattern_no_dot {t : String} (h : '.' ∉ t.data) :
    jwtPatternMatch t = false := by
  rw [jwtPatternMatch, splitDot_no_dot h]

theorem upsert_fresh {m : FindMap} {k : String} (idx : Option Nat)
    (h : ∀ p ∈ m, (p.1 == k) = false) :
    upsertFinding k idx m =
      m ++ [(k, 1, (match idx with | some i => [i] | none => []))] := by
  rw [upsertFinding.eq_def, if_neg]
  rw [List.any_eq_true]
  rintro ⟨p, hp, hpk⟩
  rw [h p hp] at hpk
  exact Bool.false_ne_true hpk

theorem noteFold_warnings : ∀ (notes : List SecurityNote)
    (st : FindMap × FindMap × FindMap),
    (∀ n ∈ notes, n.severity = .Warning →
       ∀ p ∈ st.2.1, (p.1 == noteKey n) = false) →
    (warnKeys notes).Pairwise (· ≠ ·) →
    (notes.foldl noteStep st).2.1 =
      st.2.1 ++ (notes.filter (fun n => n.severity == Severity.Warning)).map
        (fun n => (noteKey n, 1,
          (match n.entry_index with | some i => [i] | none => []))) := by
  intro notes
  induction notes with
  | nil => intro st _ _; simp
  | cons n ns ih =>
    intro st hfresh hdist
    rw [List.foldl_cons]
    cases hsev : n.severity with
    | Warning =>
      have hstep : (noteStep st n).2.1 =
          st.2.1 ++ [(noteKey n, 1,
            (match n.entry_index with | some i => [i] | none => []))] := by
        rw [noteStep, hsev]
        exact upsert_fresh _ (hfresh n (by simp) hsev)
      have hdist2 : (warnKeys (n :: ns)) = noteKey n :: warnKeys ns := by
        rw [warnKeys, List.filter_cons]
        simp [hsev, warnKeys]
      rw [hdist2] at hdist
      have hdK := List.pairwise_cons.mp hdist
      have ihres := ih (noteStep st n)
        (by
          intro n' hn' hsev' p hp
          rw [hstep] at hp
          rcases List.mem_append.mp hp with hp | hp
          · exact hfresh n' (by simp [hn']) hsev' p hp
          · have hkne : noteKey n ≠ noteKey n' := by
              apply hdK.1
              rw [warnKeys, List.mem_map]
              exact ⟨n', by rw [List.mem_filter]; exact ⟨hn', by simp [hsev']⟩, rfl⟩
            simp only [List.mem_singleton] at hp
            subst hp
            simp only [beq_eq_false_iff_ne]
            exact fun hc => hkne hc)
        hdK.2
      rw [ihres, hstep]
      rw [List.filter_cons]
      simp only [hsev, beq_self_eq_true, if_true, List.map_cons, List.append_assoc,
                 List.singleton_append]
    | Critical =>
      have hstep : (noteStep st n).2.1 = st.2.1 := by rw [noteStep, hsev]
      have ihres := ih (noteStep st n)
        (by
          intro n' hn' hsev' p hp
          rw [hstep] at hp
          exact hfresh n' (by simp [hn']) hsev' p hp)
        (by
          have hwk : warnKeys (n :: ns) = warnKeys ns := by
            rw [warnKeys, List.filter_cons]
            simp [hsev, warnKeys]
          rw [hwk] at hdist
          exact hdist)
      rw [ihres, hstep, List.filter_cons]
      simp [hsev]
    | Info =>
      have hstep : (noteStep st n).2.1 = st.2.1 := by rw [noteStep, hsev]
      have ihres := ih (noteStep st n)
        (by
          intro n' hn' hsev' p hp
          rw [hstep] at hp
          exact hfresh n' (by simp [hn']) hsev' p hp)
        (by
          have hwk : warnKeys (n :: ns) = warnKeys ns := by
            rw [warnKeys, List.filter_cons]
            simp [hsev, warnKeys]
          rw [hwk] at hdist
          exact hdist)
      rw [ihres, hstep, List.filter_cons]
      simp [hsev]

theorem keyW_inj {x y : String} (h : keyW x = keyW y) : x = y := by
  have hd := congrArg String.data h
  simp only [keyW, String.data_append, List.append_assoc] at hd
  have h1 := List.append_cancel_left hd
  have h2 := List.append_cancel_left h1
  have h3 := List.append_cancel_left h2
  have h4 := List.append_cancel_right h3
  exact String.ext h4

theorem listLt_asymm : ∀ (a b : List Char), listLt a b = true → listLt b a = false := by
  intro a
  induction a with
  | nil =>
    intro b h
    cases b with
    | nil => simp [listLt] at h
    | cons y ys => simp [listLt]
  | cons x xs ih =>
    intro b h
    cases b with
    | nil => simp [listLt] at h
    | cons y ys =>
      simp only [listLt, Bool.or_eq_true, Bool.and_eq_true, beq_iff_eq,
        decide_eq_true_eq] at h
      rcases h with hlt | ⟨heq, hrec⟩
      · have h1 : ¬ (y < x) := lt_asymm hlt
        have h2 : ¬ (y = x) := by
          intro he
          subst he
          exact lt_irrefl y hlt
        simp [listLt, h1, h2]
      · subst heq
        simp [listLt, ih ys hrec]

theorem listLt_trans :
    ∀ (a b c : List Char), listLt a b = true → listLt b c = true → listLt a c = true := by
  intro a
  induction a with
  | nil =>
    intro b c hab hbc
    cases b with
    | nil => simp [listLt] at hab
    | cons y ys =>
      cases c with
      | nil => simp [listLt] at hbc
      | cons z zs => simp [listLt]
  | cons x xs ih =>
    intro b c hab hbc
    cases b with
    | nil => simp [listLt] at hab
    | cons y ys =>
      cases c with
      | nil => simp [listLt] at hbc
      | cons z zs =>
        simp only [listLt, Bool.or_eq_true, Bool.and_eq_true, beq_iff_eq,
          decide_eq_true_eq] at hab hbc ⊢
        rcases hab with hab | ⟨haeq, harec⟩
        · rcases hbc with hbc | ⟨hbeq, hbrec⟩
          · exact Or.inl (lt_trans hab hbc)
          · exact Or.inl (by rw [← hbeq]; exact hab)
        · rcases hbc with hbc | ⟨hbeq, hbrec⟩
          · exact Or.inl (by rw [haeq]; exact hbc)
          · exact Or.inr ⟨haeq.trans hbeq, ih ys zs harec hbrec⟩

theorem sessionLt_asymm (a b : AuthSession) (h : sessionLt a b = true) :
    sessionLt b a = false :=
  listLt_asymm _ _ h

theorem sessionLt_trans (a b c : AuthSession) (h1 : sessionLt a b = true)
    (h2 : sessionLt b c = true) : sessionLt a c = true :=
  listLt_trans _ _ _ h1 h2

theorem sInsert_sorted (lt : α → α → Bool)
    (hasym : ∀ a b, lt a b = true → lt b a = false)
    (htrans : ∀ a b c, lt a b = true → lt b c = true → lt a c = true) (x : α) :
    ∀ l : List α, l.Pairwise (fun a b => lt b a = false) →
      (sInsert lt x l).Pairwise (fun a b => lt b a = false) := by
  intro l
  induction l with
  | nil =>
    intro _
    simp [sInsert]
  | cons y ys ih =>
    intro hl
    rw [List.pairwise_cons] at hl
    obtain ⟨hy, hys⟩ := hl
    by_cases hxy : lt x y = true
    · rw [sInsert, if_pos hxy]
      refine List.Pairwise.cons ?_ (List.Pairwise.cons hy hys)
      intro w hw
      rcases List.mem_cons.mp hw with rfl | hw
      · exact hasym x w hxy
      · by_cases hwx : lt w x = true
        · have hcon := htrans w x y hwx hxy
          rw [hy w hw] at hcon
          exact Bool.noConfusion hcon
        · exact Bool.not_eq_true _ ▸ hwx
    · rw [sInsert, if_neg hxy]
      have hxyf : lt x y = false := Bool.not_eq_true _ ▸ hxy
      refine List.Pairwise.cons ?_ (ih hys)
      intro w hw
      have hw2 : w = x ∨ w ∈ ys :=
        List.mem_cons.mp ((sInsert_perm lt x ys).mem_iff.mp hw)
      rcases hw2 with rfl | hw2
      · exact hxyf
      · exact hy w hw2

theorem sortFold_sorted (lt : α → α → Bool)
    (hasym : ∀ a b, lt a b = true → lt b a = false)
    (htrans : ∀ a b c, lt a b = true → lt b c = true → lt a c = true) :
    ∀ (l acc : List α), acc.Pairwise (fun a b => lt b a = false) →
      (l.foldl (fun acc x => sInsert lt x acc) acc).Pairwise
        (fun a b => lt b a = false) := by
  intro l
  induction l with
  | nil => intro acc h; exact h
  | cons x xs ih =>
    intro acc h
    rw [List.foldl_cons]
    exact ih _ (sInsert_sorted lt hasym htrans x acc h)

theorem sortByStable_sorted (lt : α → α → Bool)
    (hasym : ∀ a b, lt a b = true → lt b a = false)
    (htrans : ∀ a b c, lt a b = true → lt b c = true → lt a c = true)
    (l : List α) :
    (sortByStable lt l).Pairwise (fun a b => lt b a = false) :=
  sortFold_sorted lt hasym htrans l [] List.Pairwise.nil

theorem sessionsRun_sorted {har : Har} {out : List AuthSession}
    (h : sessionsRun har out) :
    out.Pairwise (fun a b => sessionLt b a = false) := by
  obtain ⟨cg, bg, ag, _, _, _, rfl⟩ := h
  exact sortByStable_sorted sessionLt sessionLt_asymm sessionLt_trans _

theorem sessionsRun_agree {har : Har} {out1 out2 : List AuthSession}
    (h1 : sessionsRun har out1) (h2 : sessionsRun har out2) :
    List.Perm out1 out2 := by
  obtain ⟨cg1, bg1, ag1, hc1, hb1, ha1, rfl⟩ := h1
  obtain ⟨cg2, bg2, ag2, hc2, hb2, ha2, rfl⟩ := h2
  refine (sortByStable_perm _ _).trans
    (List.Perm.trans ?_ (sortByStable_perm _ _).symm)
  exact (((hc1.filterMap _).trans (hc2.filterMap _).symm).append
    ((hb1.filterMap _).trans (hb2.filterMap _).symm)).append
      ((ha1.filterMap _).trans (ha2.filterMap _).symm)

theorem c2run_canonical : sessionsRun c2Har c2RunA :=
  ⟨_, _, _, List.Perm.refl _, List.Perm.refl _, List.Perm.refl _, rfl⟩

theorem c2run_reversed : sessionsRun c2Har c2RunB :=
  ⟨(groupPairs (cookiePairs c2Har)).reverse, _, _, List.reverse_perm _,
   List.Perm.refl _, List.Perm.refl _, rfl⟩

theorem c2runFull_canonical : analyzeRun noJh noJc c2Har c2AnalysisA :=
  ⟨detect c2Har, c2RunA, (jwt_analyze noJh noJc c2Har).1,
   List.Perm.refl _, c2run_canonical, List.Perm.refl _, rfl⟩

theorem c2runFull_reversed : analyzeRun noJh noJc c2Har c2AnalysisB :=
  ⟨detect c2Har, c2RunB, (jwt_analyze noJh noJc c2Har).1,
   List.Perm.refl _, c2run_reversed, List.Perm.refl _, rfl⟩

/-! ## Claim theorems -/

/-- C1: the claim states that `analyze(transactions)` completes on every
input, with no panic on attacker-controlled content.  The code violates
this: `SessionTracker::token_identifier` slices `&token[..16]` by bytes,
which panics when byte 16 of a longer-than-16-byte token falls inside a
multi-byte UTF-8 character.  This theorem evaluates the byte-level model
at the failing input (`Authorization: Bearer a` followed by eight
`U+03B1`): the bearer token is extracted, byte 16 is not a char
boundary, `token_identifier` panics (`none`), and the panic propagates
through the session tracker's grouping pass, aborting `analyze`. -/
theorem c1_token_identifier_panics :
    extract_bearer_token_b c1ValueB = some c1TokenB ∧
    isCharBoundaryB c1TokenB 16 = false ∧
    token_identifier_b c1TokenB = none ∧
    bearer_pass_b [[(asciiBytes "Authorization", c1ValueB)]] = none := by decide

/-- C2 counterexample: the claim states that two runs of `analyze` on
the same transaction list give structurally identical output, including
order.  The session list's order is not determined: the cookie-session
map's iteration order is arbitrary (randomised per `HashMap`), and the
final sort by first-seen timestamp is stable so it cannot break the tie
between two sessions with equal timestamps.  On `c2Har` (two auth
cookies in one transaction) both `c2RunA` and `c2RunB` are possible
outputs of a run, and they differ. -/
theorem c2_not_order_deterministic :
    ¬ (∀ (har : Har) (out1 out2 : List AuthSession),
        sessionsRun har out1 → sessionsRun har out2 → out1 = out2) := by
  intro h
  exact absurd (h c2Har c2RunA c2RunB c2run_canonical c2run_reversed) (by decide)

/-- C2 amended: two runs of `AuthAnalyzer::analyze` on the same
transaction list agree componentwise.  The flow, event, JWT-issue, SAML
and advanced-security components are identical (deterministic in the
input); the methods, sessions, security-note and JWT-token lists are
equal up to permutation (only their order varies, with the arbitrary
HashSet/HashMap iteration orders); and each run's session list is
sorted by first-seen timestamp, so even the session order can differ
between runs only among sessions whose first-seen timestamps are
equal. -/
theorem c2_runs_agree_up_to_permutation
    (ph : String → Option JwtHeader) (pc : String → Option JwtClaims)
    (har : Har) (out1 out2 : AuthAnalysis)
    (h1 : analyzeRun ph pc har out1) (h2 : analyzeRun ph pc har out2) :
    List.Perm out1.methods out2.methods ∧
    List.Perm out1.sessions out2.sessions ∧
    List.Pairwise (fun a b => sessionLt b a = false) out1.sessions ∧
    List.Perm out1.security_notes out2.security_notes ∧
    List.Perm out1.jwt_tokens out2.jwt_tokens ∧
    out1.flows = out2.flows ∧
    out1.events = out2.events ∧
    out1.jwt_issues = out2.jwt_issues ∧
    out1.saml_flows = out2.saml_flows ∧
    out1.saml_issues = out2.saml_issues ∧
    out1.advanced_security = out2.advanced_security := by
  obtain ⟨ms1, ss1, ts1, hm1, hs1, ht1, rfl⟩ := h1
  obtain ⟨ms2, ss2, ts2, hm2, hs2, ht2, rfl⟩ := h2
  have hmp : List.Perm ms1 ms2 := hm1.trans hm2.symm
  have hsp : List.Perm ss1 ss2 := sessionsRun_agree hs1 hs2
  refine ⟨hmp, hsp, sessionsRun_sorted hs1, ?_, ht1.trans ht2.symm,
    rfl, rfl, rfl, rfl, rfl, rfl⟩
  exact ((hmp.flatMap_right _).append (hsp.flatMap_right _)).append_right _

/-- C2 witness: the amended theorem applied to two concrete full
`analyze` runs on `c2Har` whose cookie-session maps were iterated in
opposite orders. -/
theorem c2_runs_agree_witness :
    List.Perm c2AnalysisA.methods c2AnalysisB.methods ∧
    List.Perm c2AnalysisA.sessions c2AnalysisB.sessions ∧
    List.Pairwise (fun a b => sessionLt b a = false) c2AnalysisA.sessions ∧
    List.Perm c2AnalysisA.security_notes c2AnalysisB.security_notes ∧
    List.Perm c2AnalysisA.jwt_tokens c2AnalysisB.jwt_tokens ∧
    c2AnalysisA.flows = c2AnalysisB.flows ∧
    c2AnalysisA.events = c2AnalysisB.events ∧
    c2AnalysisA.jwt_issues = c2AnalysisB.jwt_issues ∧
    c2AnalysisA.saml_flows = c2AnalysisB.saml_flows ∧
    c2AnalysisA.saml_issues = c2AnalysisB.saml_issues ∧
    c2AnalysisA.advanced_security = c2AnalysisB.advanced_security :=
  c2_runs_agree_up_to_permutation noJh noJc c2Har c2AnalysisA c2AnalysisB
    c2runFull_canonical c2runFull_reversed

/-- C3: `determine_primary_method` selects, in the spec's priority
order, the first available signal among OAuth2 flow, SAML flow, JWT
token, first session, form-based flow, JSON-API flow, Basic method, any
method, none, and reports the confidence the spec pairs with that
signal; in particular, an analysis with at least one SAML flow and no
OAuth2 flow yields the SAML SSO summary with High confidence. -/
theorem c3_primary_method_priority :
    (∀ a : AuthAnalysis,
       determine_primary_method a = renderSignal a (primarySignal a).1 ∧
       (determine_primary_method a).confidence = (primarySignal a).2) ∧
    (∀ a : AuthAnalysis,
       a.flows.any (fun f => isOauthFlowType f.flow_type) = false →
       a.saml_flows ≠ [] →
       determine_primary_method a =
         { method_type := "SAML SSO",
           description := toString a.saml_flows.length ++ " SAML flow(s) detected",
           confidence := .High }) := by
  constructor
  · intro a
    by_cases hOauth : a.flows.any (fun f => isOauthFlowType f.flow_type)
    · obtain ⟨fl, hfl⟩ : ∃ fl,
          a.flows.find? (fun f => isOauthFlowType f.flow_type) = some fl := by
        cases hf : a.flows.find? (fun f => isOauthFlowType f.flow_type) with
        | some fl => exact ⟨fl, rfl⟩
        | none =>
          rw [List.find?_eq_none] at hf
          obtain ⟨x, hx, hpx⟩ := List.any_eq_true.mp hOauth
          exact absurd hpx (hf x hx)
      simp [determine_primary_method, primarySignal, renderSignal, hfl, hOauth]
    · have hfnone : a.flows.find? (fun f => isOauthFlowType f.flow_type) = none := by
        rw [List.find?_eq_none]
        intro x hx hpx
        exact hOauth (List.any_eq_true.mpr ⟨x, hx, hpx⟩)
      by_cases hSaml : a.saml_flows.isEmpty
      · by_cases hJwt : a.jwt_tokens.isEmpty
        · cases hSess : a.sessions with
          | nil =>
            by_cases hForm : a.flows.any (fun f => f.flow_type == AuthFlowType.FormBased)
            · simp [determine_primary_method, primarySignal, renderSignal, hfnone,
                    hOauth, hSaml, hJwt, hSess, hForm]
            · by_cases hJson : a.flows.any (fun f => f.flow_type == AuthFlowType.JsonApi)
              · simp [determine_primary_method, primarySignal, renderSignal, hfnone,
                      hOauth, hSaml, hJwt, hSess, hForm, hJson]
              · by_cases hBasic : a.methods.any (fun m => m == AuthMethod.Basic)
                · simp [determine_primary_method, primarySignal, renderSignal, hfnone,
                        hOauth, hSaml, hJwt, hSess, hForm, hJson, hBasic]
                · by_cases hMeth : a.methods.isEmpty
                  · simp [determine_primary_method, primarySignal, renderSignal,
                          hfnone, hOauth, hSaml, hJwt, hSess, hForm, hJson, hBasic,
                          hMeth]
                  · simp [determine_primary_method, primarySignal, renderSignal,
                          hfnone, hOauth, hSaml, hJwt, hSess, hForm, hJson, hBasic,
                          hMeth]
          | cons s ss =>
            cases hst : s.session_type <;>
              simp [determine_primary_method, primarySignal, renderSignal, hfnone,
                    hOauth, hSaml, hJwt, hSess, hst]
        · simp [determine_primary_method, primarySignal, renderSignal, hfnone,
                hOauth, hSaml, hJwt]
      · simp [determine_primary_method, primarySignal, renderSignal, hfnone,
              hOauth, hSaml]
  · intro a h1 h2
    have hfnone : a.flows.find? (fun f => isOauthFlowType f.flow_type) = none := by
      rw [List.find?_eq_none]
      intro x hx hpx
      have hx2 : (a.flows.any fun f => isOauthFlowType f.flow_type) = true :=
        List.any_eq_true.mpr ⟨x, hx, hpx⟩
      rw [h1] at hx2
      exact Bool.noConfusion hx2
    have hse : a.saml_flows.isEmpty = false := by
      cases hsf : a.saml_flows with
      | nil => exact absurd hsf h2
      | cons x xs => rfl
    simp [determine_primary_method, hfnone, hse]

/-- C3 witness: the particular SAML case of the theorem applied to a
concrete analysis with one SAML flow and no OAuth2 flow. -/
theorem c3_primary_method_priority_witness :
    determine_primary_method c3SamlAnalysis =
      { method_type := "SAML SSO",
        description := toString c3SamlAnalysis.saml_flows.length ++
          " SAML flow(s) detected",
        confidence := .High } :=
  c3_primary_method_priority.2 c3SamlAnalysis (by decide) (by decide)

/-- C4 counterexample: the claim allows single-step flows only for
OAuth2 Implicit and SAML response-only matches, and asserts in
particular that a Client Credentials anchor with no subsequent
Bearer-authenticated request still yields at least 2 steps.  On `c4Har`
(one Client Credentials token request, nothing after it) the detector
records a Client Credentials flow with exactly one step. -/
theorem c4_single_step_client_credentials_flow :
    (¬ ∀ f ∈ detect_flows c4Har,
        2 ≤ f.steps.length ∨ f.flow_type = AuthFlowType.OAuth2Implicit) ∧
    (detect_flows c4Har).map (fun f => (f.flow_type, f.steps.length)) =
      [(AuthFlowType.OAuth2ClientCredentials, 1)] := by decide

/-- C4 amended: every recorded flow has at least 2 steps, except OAuth2
Implicit flows, OAuth2 Client Credentials flows (anchor with no
subsequent Bearer request), SAML IdP-initiated (response-only) flows and
SAML logout flows (request with no logout response), which may be
single-step by design. -/
theorem c4_min_steps_with_exceptions (har : Har) :
    (∀ f ∈ detect_flows har,
       2 ≤ f.steps.length ∨ f.flow_type = AuthFlowType.OAuth2ClientCredentials ∨
       f.flow_type = AuthFlowType.OAuth2Implicit) ∧
    (∀ f ∈ (saml_detect_flows har).1,
       2 ≤ f.steps.length ∨ f.flow_type = SamlFlowType.IdpInitiated ∨
       f.flow_type = SamlFlowType.Logout) := by
  constructor
  · intro f hf
    rw [detect_flows, mem_sortByStable] at hf
    simp only [List.mem_append] at hf
    rcases hf with ((((h | h) | h) | h) | h)
    · exact Or.inl (ac_min_steps h)
    · exact Or.inr (Or.inl (cc_type h))
    · exact Or.inr (Or.inr (implicit_type h))
    · exact Or.inl (form_min_steps h)
    · exact Or.inl (json_min_steps h)
  · intro f hf
    simp only [saml_detect_flows, List.mem_append] at hf
    rcases hf with ((h | h) | h)
    · exact Or.inl (sp_min_steps h)
    · exact Or.inr (Or.inl (idp_type h))
    · exact Or.inr (Or.inr (logout_type h))

/-- C4 witness: the amended theorem applied to the single-step Client
Credentials flow recorded on `c4Har`. -/
theorem c4_min_steps_witness :
    2 ≤ c4Flow.steps.length ∨ c4Flow.flow_type = AuthFlowType.OAuth2ClientCredentials ∨
    c4Flow.flow_type = AuthFlowType.OAuth2Implicit :=
  (c4_min_steps_with_exceptions c4Har).1 c4Flow (by decide)

/-- C5: the claim states that every recorded flow's steps are in
non-decreasing entry-index order.  The SP-initiated SAML builder
searches for the SAML response from the anchor's successor rather than
after the IdP-interaction step, so on `c5Har` (response at entry 1, IdP
interaction at entry 2) it records steps with entry indices `[0, 2, 1]`
— the code violates the claimed invariant. -/
theorem c5_sp_initiated_steps_out_of_order :
    ((saml_detect_flows c5Har).1.map (fun f => f.steps.map (·.entry_index))) =
      [[0, 2, 1]] ∧
    ¬ (∀ f ∈ (saml_detect_flows c5Har).1,
        List.Pairwise (· ≤ ·) (f.steps.map (·.entry_index))) := by decide

/-- C6 counterexample: the claim states that any Bearer token with
exactly three non-empty dot-separated segments classifies as `Jwt`.
`JWT_PATTERN` additionally requires every segment character to be in
`[A-Za-z0-9-_]`, so `Bearer a!.b.c` — three non-empty segments, `!`
outside the class — classifies as plain `Bearer`, not `Jwt`. -/
theorem c6_three_segments_not_sufficient :
    ((splitDot "a!.b.c".data).length = 3 ∧ ∀ s ∈ splitDot "a!.b.c".data, s ≠ []) ∧
    detect c6Har = [AuthMethod.Bearer] ∧ AuthMethod.Jwt ∉ detect c6Har := by decide

/-- C6 amended: for a request header `Authorization: Bearer <token>`,
if the token matches `JWT_PATTERN` (three non-empty dot-separated
segments of characters from `[A-Za-z0-9-_]`) the header's signal is
`Jwt` — never plain `Bearer` — and `Jwt` is in the detector's output;
if the token contains no dot, the signal is `Bearer` and `Bearer` is in
the output.  (The `hnb` hypothesis rules out tokens that themselves
start with `Bearer `, which `trim_start_matches` would also strip.) -/
theorem c6_bearer_token_classification (har : Har) (e : Entry) (hd : Header)
    (he : e ∈ har) (hh : hd ∈ e.request.headers)
    (hname : strLower hd.name = "authorization")
    (t : String) (hval : hd.value = "Bearer " ++ t)
    (hnb : strStarts t "Bearer " = false) :
    (jwtPatternMatch t = true →
       authSignal hd.value = some AuthMethod.Jwt ∧ AuthMethod.Jwt ∈ detect har) ∧
    ('.' ∉ t.data →
       authSignal hd.value = some AuthMethod.Bearer ∧
       AuthMethod.Bearer ∈ detect har) := by
  have hsig := authSignal_bearer t hnb
  constructor
  · intro hj
    have hs : authSignal hd.value = some AuthMethod.Jwt := by
      rw [hval, hsig, if_pos hj]
    exact ⟨hs, detect_of_header he hh
      (fun acc => headerStep_authorization hname hs acc)⟩
  · intro hnd
    have hjf := jwtPattern_no_dot hnd
    have hs : authSignal hd.value = some AuthMethod.Bearer := by
      rw [hval, hsig, hjf]
      simp
    exact ⟨hs, detect_of_header he hh
      (fun acc => headerStep_authorization hname hs acc)⟩

/-- C6 witness: the amended theorem applied to the concrete header
`Authorization: Bearer abc.def.ghi`. -/
theorem c6_bearer_token_classification_witness :
    authSignal c6WitnessHeader.value = some AuthMethod.Jwt ∧
    AuthMethod.Jwt ∈ detect c6WitnessHar :=
  (c6_bearer_token_classification c6WitnessHar c6WitnessEntry c6WitnessHeader
    (by decide) (by decide) (by decide) "abc.def.ghi" (by decide) (by decide)).1
    (by decide)

/-- C7 counterexample: the claim states that five distinct cookie
sessions missing HttpOnly produce one Warning-bucket entry with
`count == 5`.  The warning's message embeds the cookie name and the
dedup key is `"{category} - {message}"`, so the five sessions produce
five entries of count 1 and no entry of count 5. -/
theorem c7_findings_not_merged_across_cookies :
    ((aggregate_security_findings
        (c7Analysis "sidA" "sidB" "sidC" "sidD" "sidE")).warnings.map (·.count) =
      [1, 1, 1, 1, 1]) ∧
    ((aggregate_security_findings
        (c7Analysis "sidA" "sidB" "sidC" "sidD" "sidE")).warnings.countP
      (fun f => f.count == 5) = 0) := by decide

/-- C7 amended: five distinct cookie sessions each missing HttpOnly
produce five Warning-bucket entries — one per cookie name — each with
`count == 1` and at most 3 sample entry indices. -/
theorem c7_one_warning_bucket_per_cookie (n1 n2 n3 n4 n5 : String)
    (hd : List.Pairwise (· ≠ ·) [n1, n2, n3, n4, n5]) :
    (aggregate_security_findings (c7Analysis n1 n2 n3 n4 n5)).warnings.length = 5 ∧
    ∀ f ∈ (aggregate_security_findings (c7Analysis n1 n2 n3 n4 n5)).warnings,
      f.count = 1 ∧ f.sample_entries.length ≤ 3 := by
  have hkeys :
      (warnKeys ((c7Analysis n1 n2 n3 n4 n5).security_notes)).Pairwise (· ≠ ·) := by
    show (List.map keyW [n1, n2, n3, n4, n5]).Pairwise (· ≠ ·)
    exact List.Pairwise.map keyW (fun a b hab hc => hab (keyW_inj hc)) hd
  have hfold := noteFold_warnings ((c7Analysis n1 n2 n3 n4 n5).security_notes)
    ([], [], []) (by intro n _ _ p hp; exact absurd hp (List.not_mem_nil p)) hkeys
  have hfilter : List.filter (fun n => n.severity == Severity.Warning)
      ((c7Analysis n1 n2 n3 n4 n5).security_notes) =
      [c7warnNote n1 0, c7warnNote n2 1, c7warnNote n3 2, c7warnNote n4 3,
       c7warnNote n5 4] := rfl
  have hw : (aggregate_security_findings (c7Analysis n1 n2 n3 n4 n5)).warnings =
      toFindings ((((c7Analysis n1 n2 n3 n4 n5).security_notes).foldl noteStep
        ([], [], [])).2.1) := rfl
  rw [hw, hfold, hfilter, List.nil_append]
  constructor
  · rw [toFindings, (sortByStable_perm _ _).length_eq]
    simp
  · intro f hf
    rw [toFindings, mem_sortByStable] at hf
    obtain ⟨p, hp, rfl⟩ := List.mem_map.mp hf
    obtain ⟨n, hn, rfl⟩ := List.mem_map.mp hp
    simp only [List.mem_cons, List.not_mem_nil, or_false] at hn
    rcases hn with rfl | rfl | rfl | rfl | rfl <;> simp [c7warnNote]

/-- C7 witness: the amended theorem applied at five concrete distinct
cookie names. -/
theorem c7_one_warning_bucket_per_cookie_witness :
    (aggregate_security_findings (c7Analysis "a" "b" "c" "d" "e")).warnings.length = 5 ∧
    ∀ f ∈ (aggregate_security_findings (c7Analysis "a" "b" "c" "d" "e")).warnings,
      f.count = 1 ∧ f.sample_entries.length ≤ 3 :=
  c7_one_warning_bucket_per_cookie "a" "b" "c" "d" "e" (by decide)

/-- C8: on the empty transaction list every detector returns empty
collections, the summary layer returns `none` (rendered by the CLI as
"No authentication detected" rather than an error), and the
primary-method determination reports the none-detected summary. -/
theorem c8_empty_input_all_empty (ph : String → Option JwtHeader)
    (pc : String → Option JwtClaims) (ep : String → String) :
    auth_analyze ph pc [] =
      { methods := [], sessions := [], flows := [], events := [],
        security_notes := [], jwt_tokens := [], jwt_issues := [], saml_flows := [],
        saml_issues := [],
        advanced_security := { token_exposures := [], cors_issues := [],
                               csp_findings := [], refresh_patterns := [] } } ∧
    generate_summary ep (auth_analyze ph pc []) = none ∧
    determine_primary_method (auth_analyze ph pc []) =
      { method_type := "None Detected",
        description := "No clear authentication mechanism found in HAR file",
        confidence := .Low } :=
  ⟨rfl, rfl, rfl⟩

/-- C9: every session produced by the session tracker has its entry
indices in non-decreasing order, a request count equal to the number of
entry indices, and first/last-seen timestamps equal to the start
timestamps of the transactions at the first and last listed entry
indices. -/
theorem c9_session_tracker_invariants (har : Har) (s : AuthSession)
    (hs : s ∈ track_sessions har) :
    List.Pairwise (· ≤ ·) s.entry_indices ∧
    s.request_count = s.entry_indices.length ∧
    s.entry_indices ≠ [] ∧
    (∀ i, s.entry_indices.head? = some i →
       ∃ e, har.get? i = some e ∧ e.started_date_time = s.first_seen) ∧
    (∀ i, s.entry_indices.getLast? = some i →
       ∃ e, har.get? i = some e ∧ e.started_date_time = s.last_seen) := by
  rw [track_sessions, mem_sortByStable] at hs
  simp only [List.mem_append] at hs
  rcases hs with (h | h) | h
  · obtain ⟨⟨k, vs⟩, hgp, heq⟩ := List.mem_filterMap.mp h
    obtain ⟨hpw, hget, hne⟩ :=
      group_values_props (cookiePairs_pairwise har) (cookiePairs_get har) hgp
    cases vs with
    | nil => exact Option.noConfusion heq
    | cons f rest =>
      simp only [build_cookie_session] at heq
      cases heq
      exact session_core f rest hpw hget
  · obtain ⟨⟨k, vs⟩, hgp, heq⟩ := List.mem_filterMap.mp h
    obtain ⟨hpw, hget, hne⟩ :=
      group_values_props (bearerPairs_pairwise har) (bearerPairs_get har) hgp
    cases vs with
    | nil => exact Option.noConfusion heq
    | cons f rest =>
      simp only [build_bearer_session] at heq
      cases heq
      exact session_core f rest hpw hget
  · obtain ⟨⟨k, vs⟩, hgp, heq⟩ := List.mem_filterMap.mp h
    obtain ⟨hpw, hget, hne⟩ :=
      group_values_props (apiKeyPairs_pairwise har) (apiKeyPairs_get har) hgp
    cases vs with
    | nil => exact Option.noConfusion heq
    | cons f rest =>
      simp only [build_apikey_session] at heq
      cases heq
      exact session_core f rest hpw hget

/-- C9 witness: the invariants applied to the concrete session the
tracker produces on `c9Har`. -/
theorem c9_session_tracker_invariants_witness :
    List.Pairwise (· ≤ ·) c9Session.entry_indices ∧
    c9Session.request_count = c9Session.entry_indices.length ∧
    c9Session.entry_indices ≠ [] ∧
    (∀ i, c9Session.entry_indices.head? = some i →
       ∃ e, c9Har.get? i = some e ∧ e.started_date_time = c9Session.first_seen) ∧
    (∀ i, c9Session.entry_indices.getLast? = some i →
       ∃ e, c9Har.get? i = some e ∧ e.started_date_time = c9Session.last_seen) :=
  c9_session_tracker_invariants c9Har c9Session (by decide)

/-- C10: any request header named `cookie` (case-insensitively) whose
whole value, lowercased, contains one of the substrings `session`,
`auth`, `token`, `jwt` or `sid` anywhere — including inside a cookie
value — makes the method detector's output contain `Cookie`. -/
theorem c10_cookie_header_value_substring (har : Har) (e : Entry) (hd : Header)
    (he : e ∈ har) (hh : hd ∈ e.request.headers)
    (hname : strLower hd.name = "cookie")
    (hac : has_auth_cookie hd.value = true) : AuthMethod.Cookie ∈ detect har :=
  detect_of_header he hh (fun acc => headerStep_cookie_arm hname hac acc)

/-- C10 witness: the theorem applied to a concrete `Cookie` header whose
only auth marker sits inside a cookie value. -/
theorem c10_cookie_header_value_substring_witness :
    AuthMethod.Cookie ∈ detect c10Har :=
  c10_cookie_header_value_substring c10Har c10Entry c10Header (by decide) (by decide)
    (by decide) (by decide)

end Harrier
